import Mathlib

/-!
# sear: verification development

A shallow embedding of the VM lifecycle orchestrator of `sear`
(`internal/vm`, `internal/network`, `internal/firecracker`, `cmd/run.go`)
and theorems about it.

Every interaction of the program with the outside (host commands run through
`exec.Command`, the hypervisor control socket, the remote executor, the
process environment) goes through an explicit environment `Env σ` over an
arbitrary state type `σ`.  The embedding threads a `World σ`: the state of the
outside together with the log of every interaction issued so far, in order.
Go `error` values are modelled by their message (`Option String`, `none` for
`nil`), so that `fmt.Errorf("msg: %w", err)` is string concatenation.
-/

namespace Sear

/-! ## Data model (`internal/config/models.go`) -/

/-- A Go `error`, by its message; `none` is `nil`. -/
abbrev Error := Option String

/-- The struct `config.NetworkConfig`. -/
structure NetworkConfig where
  TAPDevice : String
  TAPIP : String
  GuestIP : String
  GatewayIP : String
  HostInterface : String
  DNSServer : String
  deriving DecidableEq, Repr

/-- The struct `config.VMConfig`. -/
structure VMConfig where
  VCPUs : Int
  MemoryMiB : Int
  RootFS : String
  Kernel : String
  KernelArgs : String
  deriving DecidableEq, Repr

/-- The struct `config.Profile`; a nil `Network` pointer is `none`. -/
structure Profile where
  VM : VMConfig
  Tools : List String
  Network : Option NetworkConfig
  deriving DecidableEq, Repr

/-- The struct `config.SSHConfig`. -/
structure SSHConfig where
  KeyPath : String
  Username : String
  deriving DecidableEq, Repr

/-- The struct `config.Config`; the profile map is an association list. -/
structure Config where
  DefaultProfile : String
  Profiles : List (String × Profile)
  Network : Option NetworkConfig
  SSH : Option SSHConfig
  deriving DecidableEq, Repr

/-! ## The outside world -/

/-- A value of a request body: the control calls only send strings and booleans. -/
inductive JVal where
  | str (s : String)
  | bool (b : Bool)
  deriving DecidableEq, Repr

/-- One HTTP request on the control socket: method, path and the fields of the
JSON object sent (a Go `map[string]interface{}`, listed in source order). -/
structure Request where
  method : String
  endpoint : String
  body : List (String × JVal)
  deriving DecidableEq, Repr

/-- The struct `ssh.Client`: where and as whom remote commands are executed. -/
structure SSHHandle where
  host : String
  port : Int
  username : String
  privateKey : String
  deriving DecidableEq, Repr

/-- A decoded JSON document, as `encoding/json` sees it. -/
inductive Json where
  | null
  | bool (b : Bool)
  | num (literal : String)
  | str (s : String)
  | arr (items : List Json)
  | obj (fields : List (String × Json))

/-- One interaction with the outside. -/
inductive Event where
  /-- The call `exec.Command(argv...).Run()`. -/
  | command (argv : List String)
  /-- The call `exec.Command(argv...).Output()`. -/
  | query (argv : List String)
  /-- One request sent on the control socket at `socket`. -/
  | request (socket : String) (r : Request)
  /-- The call `ssh.Client.ExecuteCommand(cmd)`. -/
  | remote (c : SSHHandle) (cmd : String)
  /-- The call `ssh.Client.Shell()`. -/
  | shell (c : SSHHandle)
  deriving DecidableEq, Repr

/-- The outside of the program, over a state `σ`: how each interaction changes
the state and what it answers.  Nothing is assumed about it. -/
structure Env (σ : Type) where
  /-- Answer of `exec.Command(argv...).Run()`: the error, if any. -/
  run : σ → List String → σ × Error
  /-- Answer of `exec.Command(argv...).Output()`: standard output or an error. -/
  output : σ → List String → σ × Except String String
  /-- Whether `os.Stat(path)` reports that the path does not exist. -/
  socketMissing : σ → String → Bool
  /-- Answer of `client.Do(req)` over the socket: the response status, or the
  transport error. -/
  roundTrip : σ → String → Request → σ × Except String Nat
  /-- Answer of `ssh.Client.ExecuteCommand`. -/
  execute : σ → SSHHandle → String → σ × Error
  /-- Answer of `ssh.Client.Shell`. -/
  shell : σ → SSHHandle → σ × Error
  /-- The function `os.Getenv` (empty when unset). -/
  getenv : String → String
  /-- The function `os.UserHomeDir`. -/
  userHomeDir : Except String String
  /-- The function `filepath.Join`. -/
  join : List String → String
  /-- The function `filepath.Abs`. -/
  abs : String → Except String String
  /-- The function `os.Getwd`. -/
  getwd : Except String String
  /-- Syntax decoding of `encoding/json`, numbers kept as their literals;
  `none` for a malformed document. -/
  decodeJSON : String → Option Json

/-- The state of the outside and the interactions issued so far, oldest first. -/
structure World (σ : Type) where
  state : σ
  log : List Event

variable {σ : Type}

/-- The call `fmt.Errorf(msg + ": %w", err)`. -/
def wrap (msg : String) (err : String) : String := msg ++ ": " ++ err

/-! ## Host network setup manager (`internal/network/manager.go`) -/

/-- The struct `network.Manager`. -/
structure Manager where
  TAPDevice : String
  TAPIP : String
  GatewayIP : String
  HostInterface : String
  deriving DecidableEq, Repr

/-- The constructor `network.NewManager`. -/
def NewManager (tapDevice tapIP gatewayIP : String) : Manager :=
  { TAPDevice := tapDevice, TAPIP := tapIP, GatewayIP := gatewayIP, HostInterface := "" }

/-- The method `Manager.runCommand(name, args...)`; `argv` is `name :: args`. -/
def runCommand (env : Env σ) (w : World σ) (argv : List String) : World σ × Error :=
  let r := env.run w.state argv
  ({ state := r.1, log := w.log ++ [Event.command argv] }, r.2)

/-- The call `exec.Command(argv...).Output()`. -/
def commandOutput (env : Env σ) (w : World σ) (argv : List String) :
    World σ × Except String String :=
  let r := env.output w.state argv
  ({ state := r.1, log := w.log ++ [Event.query argv] }, r.2)

/-- The method `Manager.setupTAPDevice`. -/
def setupTAPDevice (env : Env σ) (m : Manager) (w : World σ) : World σ × Error :=
  let r0 := runCommand env w ["ip", "link", "del", m.TAPDevice]
  let r1 := runCommand env r0.1 ["ip", "tuntap", "add", "dev", m.TAPDevice, "mode", "tap"]
  match r1.2 with
  | some e => (r1.1, some (wrap "failed to create TAP device" e))
  | none =>
    let r2 := runCommand env r1.1 ["ip", "addr", "add", m.TAPIP ++ "/30", "dev", m.TAPDevice]
    match r2.2 with
    | some e => (r2.1, some (wrap "failed to configure TAP IP" e))
    | none =>
      let r3 := runCommand env r2.1 ["ip", "link", "set", "dev", m.TAPDevice, "up"]
      match r3.2 with
      | some e => (r3.1, some (wrap "failed to bring up TAP device" e))
      | none => (r3.1, none)

/-- The method `Manager.removeTAPDevice`. -/
def removeTAPDevice (env : Env σ) (m : Manager) (w : World σ) : World σ × Error :=
  runCommand env w ["ip", "link", "del", m.TAPDevice]

/-- The method `Manager.enableIPForwarding`. -/
def enableIPForwarding (env : Env σ) (w : World σ) : World σ × Error :=
  let r0 := runCommand env w ["sh", "-c", "echo 1 > /proc/sys/net/ipv4/ip_forward"]
  match r0.2 with
  | some e => (r0.1, some (wrap "failed to enable IP forwarding" e))
  | none =>
    let r1 := runCommand env r0.1 ["iptables", "-P", "FORWARD", "ACCEPT"]
    match r1.2 with
    | some e => (r1.1, some (wrap "failed to set forward policy" e))
    | none => (r1.1, none)

/-- The method `Manager.configureNAT`. -/
def configureNAT (env : Env σ) (m : Manager) (w : World σ) : World σ × Error :=
  let r0 := runCommand env w
    ["iptables", "-t", "nat", "-D", "POSTROUTING", "-o", m.HostInterface, "-j", "MASQUERADE"]
  let r1 := runCommand env r0.1
    ["iptables", "-t", "nat", "-A", "POSTROUTING", "-o", m.HostInterface, "-j", "MASQUERADE"]
  match r1.2 with
  | some e => (r1.1, some (wrap "failed to configure NAT" e))
  | none => (r1.1, none)

/-- The method `Manager.removeNAT`. -/
def removeNAT (env : Env σ) (m : Manager) (w : World σ) : World σ × Error :=
  runCommand env w
    ["iptables", "-t", "nat", "-D", "POSTROUTING", "-o", m.HostInterface, "-j", "MASQUERADE"]

/-! ### Host interface detection -/

/-- The predicate `unicode.IsSpace`, which `strings.Fields` splits on. -/
def isSpace (c : Char) : Bool :=
  c = ' ' || c = '\t' || c = '\n' || c = '\r' || c.toNat = 0x0B || c.toNat = 0x0C ||
  c.toNat = 0x85 || c.toNat = 0xA0 || c.toNat = 0x1680 ||
  (0x2000 ≤ c.toNat && c.toNat ≤ 0x200A) || c.toNat = 0x2028 || c.toNat = 0x2029 ||
  c.toNat = 0x202F || c.toNat = 0x205F || c.toNat = 0x3000

/-- Cut a character list at every character satisfying `p` (the pieces may be empty). -/
def splitAt (p : Char → Bool) : List Char → List (List Char)
  | [] => [[]]
  | c :: cs =>
    if p c then [] :: splitAt p cs
    else
      match splitAt p cs with
      | [] => [[c]]
      | piece :: pieces => (c :: piece) :: pieces

/-- The call `strings.Split(s, "\n")`. -/
def splitLines (s : String) : List String :=
  (splitAt (fun c => c = '\n') s.data).map String.mk

/-- The function `strings.Fields`. -/
def fields (s : String) : List String :=
  ((splitAt isSpace s.data).filter (fun piece => !piece.isEmpty)).map String.mk

/-- Whether `sub` occurs in `cs` as a contiguous block. -/
def containsChars (sub : List Char) : List Char → Bool
  | [] => sub.isEmpty
  | c :: cs => sub.isPrefixOf (c :: cs) || containsChars sub cs

/-- The function `strings.Contains`. -/
def contains (s sub : String) : Bool := containsChars sub.data s.data

/-- The inner loop of `detectHostInterface`: the part following the first
`"dev"` that has a successor. -/
def devAfter : List String → Option String
  | [] => none
  | part :: rest =>
    if part = "dev" then
      match rest with
      | next :: _ => some next
      | [] => none
    else devAfter rest

/-- The text fallback of `detectHostInterface`: over the lines containing
`"default"`, the first `devAfter` result. -/
def parseTextRoutes (output : String) : Option String :=
  (splitLines output).findSome? fun line =>
    if contains line "default" then devAfter (fields line) else none

/-- The value of a run of decimal digits read after `acc`; `none` when it holds
another character. -/
def digitsValueFrom (acc : Nat) : List Char → Option Nat
  | [] => some acc
  | c :: cs => if c.isDigit then digitsValueFrom (acc * 10 + (c.toNat - 48)) cs else none

/-- The value of a non-empty run of decimal digits. -/
def digitsValue (cs : List Char) : Option Nat :=
  if cs = [] then none else digitsValueFrom 0 cs

/-- Whether `strconv.ParseFloat(literal, 64)` accepts a JSON number literal
(sign, digits, optional fraction, optional exponent): it does unless the value
rounds to infinity, that is unless its magnitude reaches `2^1024 - 2^970`, half
way between the largest float64 and `2^1024`.  A value too small for float64 is
accepted (as zero). -/
def fitsFloat64 (literal : String) : Bool :=
  let unsigned :=
    match literal.data with
    | '-' :: rest => rest
    | all => all
  let parts := unsigned.span fun c => c != 'e' && c != 'E'
  let mantissa := parts.1.span fun c => c != '.'
  let fraction := mantissa.2.drop 1
  let exponent : Option Int :=
    match parts.2 with
    | [] => some 0
    | _ :: '-' :: digits => (digitsValue digits).map fun n => -(n : Int)
    | _ :: '+' :: digits => (digitsValue digits).map fun n => (n : Int)
    | _ :: digits => (digitsValue digits).map fun n => (n : Int)
  match digitsValue (mantissa.1 ++ fraction), exponent with
  | some m, some e =>
    let k := e - (fraction.length : Int)
    if 0 ≤ k then decide (m * 10 ^ k.toNat < 2 ^ 1024 - 2 ^ 970)
    else decide (m < (2 ^ 1024 - 2 ^ 970) * 10 ^ (-k).toNat)
  | _, _ => false

mutual
/-- Whether `json.Unmarshal` converts every number of the document: into an
`interface{}` a number becomes a float64, and a literal that `strconv.ParseFloat`
rejects makes `Unmarshal` return an error. -/
def numbersFit : Json → Bool
  | Json.num literal => fitsFloat64 literal
  | Json.arr items => allFit items
  | Json.obj kvs => fieldsFit kvs
  | _ => true
/-- The check `numbersFit` on the items of an array. -/
def allFit : List Json → Bool
  | [] => true
  | item :: items => numbersFit item && allFit items
/-- The check `numbersFit` on the values of an object. -/
def fieldsFit : List (String × Json) → Bool
  | [] => true
  | (_, value) :: kvs => numbersFit value && fieldsFit kvs
end

/-- The value looked up in a decoded JSON object: the last occurrence of the
key, as in a Go map filled in document order. -/
def lookupField (key : String) (kvs : List (String × Json)) : Option Json :=
  (kvs.reverse.find? fun kv => kv.1 = key).map Prod.snd

/-- Whether `json.Unmarshal` accepts the element for a `map[string]interface{}`. -/
def isRoute : Json → Bool
  | Json.obj _ => true
  | Json.null => true
  | _ => false

/-- The JSON branch of `detectHostInterface`: `json.Unmarshal` into
`[]map[string]interface{}` succeeds (the document is well formed, it is an
array, every element is an object or null, and every number in it converts to
float64), there is a first route, and its `"dev"` is a string. -/
def parseJSONRoutes (doc : Option Json) : Option String :=
  match doc with
  | some (Json.arr items) =>
    if items.all isRoute && numbersFit (Json.arr items) then
      match items with
      | Json.obj kvs :: _ =>
        match lookupField "dev" kvs with
        | some (Json.str dev) => some dev
        | _ => none
      | _ => none
    else none
  | _ => none

/-- The parsing half of `detectHostInterface`, on the output it settled on. -/
def parseRoutes (env : Env σ) (output : String) : Except String String :=
  let fromJSON :=
    if output.data.head? = some '[' then parseJSONRoutes (env.decodeJSON output) else none
  match fromJSON with
  | some dev => Except.ok dev
  | none =>
    match parseTextRoutes output with
    | some dev => Except.ok dev
    | none => Except.error "could not detect default interface"

/-- The method `Manager.detectHostInterface`. -/
def detectHostInterface (env : Env σ) (w : World σ) : World σ × Except String String :=
  let r0 := commandOutput env w ["ip", "-j", "route", "list", "default"]
  match r0.2 with
  | Except.ok output => (r0.1, parseRoutes env output)
  | Except.error _ =>
    let r1 := commandOutput env r0.1 ["ip", "route", "show", "default"]
    match r1.2 with
    | Except.ok output => (r1.1, parseRoutes env output)
    | Except.error e => (r1.1, Except.error (wrap "failed to detect default interface" e))

/-- The method `Manager.Setup`: the world after it, the manager as mutated
(`HostInterface` is assigned) and the error returned. -/
def Setup (env : Env σ) (m : Manager) (w : World σ) : World σ × Manager × Error :=
  let d := detectHostInterface env w
  let m1 : Manager :=
    match d.2 with
    | Except.error _ => { m with HostInterface := "eth0" }
    | Except.ok hostInterface => { m with HostInterface := hostInterface }
  let r0 := setupTAPDevice env m1 d.1
  match r0.2 with
  | some e => (r0.1, m1, some (wrap "failed to setup TAP device" e))
  | none =>
    let r1 := enableIPForwarding env r0.1
    match r1.2 with
    | some e => (r1.1, m1, some (wrap "failed to enable IP forwarding" e))
    | none =>
      let r2 := configureNAT env m1 r1.1
      match r2.2 with
      | some e => (r2.1, m1, some (wrap "failed to configure NAT" e))
      | none => (r2.1, m1, none)

/-- The method `Manager.Teardown`: both removals run, their errors are only logged. -/
def Teardown (env : Env σ) (m : Manager) (w : World σ) : World σ × Error :=
  let r0 := removeTAPDevice env m w
  let r1 := removeNAT env m r0.1
  (r1.1, none)

/-- The method `Manager.GetMACAddress`. -/
def GetMACAddress (_m : Manager) : String := "06:00:AC:10:00:02"

/-! ## Hypervisor control client (`internal/firecracker/client.go`) -/

/-- The struct `firecracker.Client`. -/
structure Client where
  socketPath : String
  deriving DecidableEq, Repr

/-- The constructor `firecracker.NewClient`: fails when the socket path does not exist. -/
def NewClient (env : Env σ) (w : World σ) (socketPath : String) : Except String Client :=
  if env.socketMissing w.state socketPath then
    Except.error ("Firecracker socket not found: " ++ socketPath)
  else Except.ok { socketPath := socketPath }

/-- The method `Client.request`.  The bodies sent are maps of strings and
booleans and the method is always `PUT`, so `json.Marshal` and
`http.NewRequest` do not fail; the request is sent and the status compared
with `http.StatusOK`. -/
def Client.request (env : Env σ) (c : Client) (w : World σ) (method endpoint : String)
    (data : List (String × JVal)) : World σ × Error :=
  let req : Request := { method := method, endpoint := endpoint, body := data }
  let r := env.roundTrip w.state c.socketPath req
  let w1 : World σ := { state := r.1, log := w.log ++ [Event.request c.socketPath req] }
  match r.2 with
  | Except.error e => (w1, some (wrap "request failed" e))
  | Except.ok status =>
    if status ≠ 200 then
      (w1, some ("API request failed with status: " ++ toString status))
    else (w1, none)

/-- The helper `expandPath`: `len(path) > 1 && path[0] == '~'`, then the home
directory joined with `path[1:]`. -/
def expandPath (env : Env σ) (path : String) : String :=
  if path.utf8ByteSize > 1 ∧ path.data.head? = some '~' then
    match env.userHomeDir with
    | Except.ok home => env.join [home, String.mk (path.data.drop 1)]
    | Except.error _ => path
  else path

/-- The method `Client.ConfigureLogger`. -/
def Client.ConfigureLogger (env : Env σ) (c : Client) (w : World σ) (logPath level : String) :
    World σ × Error :=
  c.request env w "PUT" "/logger"
    [("log_path", JVal.str logPath), ("level", JVal.str level),
     ("show_level", JVal.bool true), ("show_log_origin", JVal.bool true)]

/-- The method `Client.SetBootSource`. -/
def Client.SetBootSource (env : Env σ) (c : Client) (w : World σ) (kernelPath bootArgs : String) :
    World σ × Error :=
  c.request env w "PUT" "/boot-source"
    [("kernel_image_path", JVal.str (expandPath env kernelPath)),
     ("boot_args", JVal.str bootArgs)]

/-- The method `Client.AttachRootfs`. -/
def Client.AttachRootfs (env : Env σ) (c : Client) (w : World σ) (driveID pathOnHost : String)
    (isRoot isReadOnly : Bool) : World σ × Error :=
  c.request env w "PUT" ("/drives/" ++ driveID)
    [("drive_id", JVal.str driveID), ("path_on_host", JVal.str (expandPath env pathOnHost)),
     ("is_root_device", JVal.bool isRoot), ("is_read_only", JVal.bool isReadOnly)]

/-- The method `Client.AttachNetwork`. -/
def Client.AttachNetwork (env : Env σ) (c : Client) (w : World σ)
    (interfaceID guestMAC hostDevName : String) : World σ × Error :=
  c.request env w "PUT" ("/network-interfaces/" ++ interfaceID)
    [("iface_id", JVal.str interfaceID), ("guest_mac", JVal.str guestMAC),
     ("host_dev_name", JVal.str hostDevName)]

/-- The method `Client.StartInstance`. -/
def Client.StartInstance (env : Env σ) (c : Client) (w : World σ) : World σ × Error :=
  c.request env w "PUT" "/actions" [("action_type", JVal.str "InstanceStart")]

/-! ## VM lifecycle orchestrator (`internal/vm/vm.go`) -/

/-- The struct `vm.SSHClient`. -/
structure SSHClient where
  client : SSHHandle
  deriving DecidableEq, Repr

/-- The struct `vm.VM`; nil pointers are `none`. -/
structure VM where
  profile : Profile
  fcClient : Option Client
  netManager : Option Manager
  sshClient : Option SSHClient
  deriving DecidableEq, Repr

/-- The constructor `vm.NewVM`. -/
def NewVM (profile : Profile) : VM × Error :=
  ({ profile := profile, fcClient := none, netManager := none, sshClient := none }, none)

/-- The method `VM.getEffectiveNetworkConfig`. -/
def VM.getEffectiveNetworkConfig (v : VM) : NetworkConfig :=
  match v.profile.Network with
  | some network => network
  | none =>
    { TAPDevice := "tap0", TAPIP := "172.16.0.1", GuestIP := "172.16.0.2",
      GatewayIP := "172.16.0.1", HostInterface := "", DNSServer := "1.1.1.1" }

/-- The control socket path chosen by `VM.Start`. -/
def socketPath (env : Env σ) : String :=
  if env.getenv "FIRECRACKER_API_SOCKET" = "" then "/tmp/firecracker.socket"
  else env.getenv "FIRECRACKER_API_SOCKET"

/-- The boot arguments chosen by `VM.Start`. -/
def kernelArgs (p : Profile) : String :=
  if p.VM.KernelArgs ≠ "" then p.VM.KernelArgs else "console=ttyS0 reboot=k panic=1"

/-- The method `VM.Start`: the world after it, the VM as mutated and the error returned. -/
def VM.Start (env : Env σ) (v : VM) (w : World σ) : World σ × VM × Error :=
  let networkConfig := v.getEffectiveNetworkConfig
  let s := Setup env
    (NewManager networkConfig.TAPDevice networkConfig.TAPIP networkConfig.GatewayIP) w
  let netManager := s.2.1
  let v1 : VM := { v with netManager := some netManager }
  match s.2.2 with
  | some e => (s.1, v1, some (wrap "failed to setup network" e))
  | none =>
    match NewClient env s.1 (socketPath env) with
    | Except.error e => (s.1, v1, some (wrap "failed to connect to Firecracker" e))
    | Except.ok fcClient =>
      let v2 : VM := { v1 with fcClient := some fcClient }
      let r0 := fcClient.ConfigureLogger env s.1 "/tmp/sear-firecracker.log" "Debug"
      let r1 := fcClient.SetBootSource env r0.1 v.profile.VM.Kernel (kernelArgs v.profile)
      match r1.2 with
      | some e => (r1.1, v2, some (wrap "failed to set boot source" e))
      | none =>
        let r2 := fcClient.AttachRootfs env r1.1 "rootfs" v.profile.VM.RootFS true false
        match r2.2 with
        | some e => (r2.1, v2, some (wrap "failed to attach rootfs" e))
        | none =>
          let mac := GetMACAddress netManager
          let r3 := fcClient.AttachNetwork env r2.1 "net1" mac netManager.TAPDevice
          match r3.2 with
          | some e => (r3.1, v2, some (wrap "failed to attach network" e))
          | none =>
            let r4 := fcClient.StartInstance env r3.1
            match r4.2 with
            | some e => (r4.1, v2, some (wrap "failed to start instance" e))
            | none => (r4.1, v2, none)

/-- The method `VM.Stop`. -/
def VM.Stop (env : Env σ) (v : VM) (w : World σ) : World σ × Error :=
  match v.netManager with
  | some netManager => ((Teardown env netManager w).1, none)
  | none => (w, none)

/-- The method `VM.GetSSHClient`. -/
def VM.GetSSHClient (env : Env σ) (v : VM) : SSHClient × Error :=
  let networkConfig := v.getEffectiveNetworkConfig
  let sshKeyPath :=
    match env.userHomeDir with
    | Except.ok configHome => env.join [configHome, ".config", "sear", "sear_key"]
    | Except.error _ => "sear_key"
  ({ client := { host := networkConfig.GuestIP, port := 22, username := "root",
                 privateKey := sshKeyPath } }, none)

/-- The method `vm.SSHClient.ExecuteCommand`. -/
def SSHClient.ExecuteCommand (env : Env σ) (c : SSHClient) (w : World σ) (cmd : String) :
    World σ × Error :=
  let r := env.execute w.state c.client cmd
  ({ state := r.1, log := w.log ++ [Event.remote c.client cmd] }, r.2)

/-- The method `vm.SSHClient.Shell`. -/
def SSHClient.Shell (env : Env σ) (c : SSHClient) (w : World σ) : World σ × Error :=
  let r := env.shell w.state c.client
  ({ state := r.1, log := w.log ++ [Event.shell c.client] }, r.2)

/-- The method `VM.MountDirectory`. -/
def VM.MountDirectory (env : Env σ) (_v : VM) (sshClient : SSHClient) (w : World σ)
    (hostPath : String) : World σ × Error :=
  match env.abs hostPath with
  | Except.error e => (w, some (wrap "failed to get absolute path" e))
  | Except.ok absPath =>
    let mountPoint := "/host"
    let r0 := sshClient.ExecuteCommand env w ("mkdir -p " ++ mountPoint)
    match r0.2 with
    | some e => (r0.1, some (wrap "failed to create mount point" e))
    | none =>
      let mountCmd :=
        "mount -t virtiofs -o allow_other,default_permissions sear_share " ++ mountPoint
      let r1 := sshClient.ExecuteCommand env r0.1 mountCmd
      match r1.2 with
      | none => (r1.1, none)
      | some _ =>
        let bindCmd := "mount --bind " ++ absPath ++ " " ++ mountPoint
        let r2 := sshClient.ExecuteCommand env r1.1 bindCmd
        match r2.2 with
        | some e => (r2.1, some (wrap "failed to mount directory" e))
        | none => (r2.1, none)

/-! ## The run command (`cmd/run.go`, `internal/config/config.go`) -/

/-- The function `config.applyEnvOverrides`. -/
def applyEnvOverrides (env : Env σ) (cfg : Config) : Config :=
  let tapDevice := env.getenv "SEAR_TAP_DEVICE"
  let cfg1 : Config :=
    if tapDevice ≠ "" then
      let network : NetworkConfig :=
        match cfg.Network with
        | some network => network
        | none => { TAPDevice := "", TAPIP := "", GuestIP := "", GatewayIP := "",
                    HostInterface := "", DNSServer := "" }
      { cfg with Network := some { network with TAPDevice := tapDevice } }
    else cfg
  let sshKey := env.getenv "SEAR_SSH_KEY"
  if sshKey ≠ "" then
    let ssh : SSHConfig :=
      match cfg1.SSH with
      | some ssh => ssh
      | none => { KeyPath := "", Username := "" }
    { cfg1 with SSH := some { ssh with KeyPath := sshKey } }
  else cfg1

/-- The function `config.Load`, from the outcome `file` of reading and
unmarshalling the configuration file (done by the viper library): the
environment overrides are applied to a configuration that was read. -/
def Load (env : Env σ) (file : Except String Config) : Except String Config :=
  match file with
  | Except.error e => Except.error e
  | Except.ok cfg => Except.ok (applyEnvOverrides env cfg)

/-- The function `getProfileNames`. -/
def getProfileNames (cfg : Config) : List String := cfg.Profiles.map Prod.fst

/-- The loop `for _, cmd := range cmds`, executing each command remotely and
only logging a failure. -/
def executeEach (env : Env σ) (sshClient : SSHClient) : World σ → List String → World σ
  | w, [] => w
  | w, cmd :: cmds => executeEach env sshClient (sshClient.ExecuteCommand env w cmd).1 cmds

/-- The function `configureGuestNetworking`. -/
def configureGuestNetworking (env : Env σ) (sshClient : SSHClient) (profile : Profile)
    (w : World σ) : World σ × Error :=
  let dnsServer :=
    match profile.Network with
    | some network => if network.DNSServer ≠ "" then network.DNSServer else "1.1.1.1"
    | none => "1.1.1.1"
  let commands :=
    ["echo 'nameserver " ++ dnsServer ++ "' > /etc/resolv.conf",
     "ip route add default via 172.16.0.1 dev eth0 2>/dev/null || true"]
  (executeEach env sshClient w commands, none)

/-- The function `runToolCommands`. -/
def runToolCommands (env : Env σ) (sshClient : SSHClient) (tools : List String)
    (w : World σ) : World σ × Error :=
  if tools.length = 0 then (w, none)
  else (executeEach env sshClient w tools, none)

/-- The part of `runProfile` after the deferred `Stop` is registered, up to its
return value. -/
def runSession (env : Env σ) (vmInstance : VM) (profile : Profile) (w : World σ) :
    World σ × Error :=
  let g := vmInstance.GetSSHClient env
  match g.2 with
  | some e => (w, some (wrap "failed to create SSH client" e))
  | none =>
    let sshClient := g.1
    let r0 := configureGuestNetworking env sshClient profile w
    let r1 := runToolCommands env sshClient profile.Tools r0.1
    let w2 :=
      match env.getwd with
      | Except.error _ => r1.1
      | Except.ok cwd => (vmInstance.MountDirectory env sshClient r1.1 cwd).1
    sshClient.Shell env w2

/-- The function `runProfile`, from the outcome `file` of reading the
configuration file.  The deferred `Stop` is registered only after `Start`
returned nil; it runs after the session and the session's result is returned. -/
def runProfile (env : Env σ) (file : Except String Config) (profileName : String)
    (w : World σ) : World σ × Error :=
  match Load env file with
  | Except.error e => (w, some (wrap "failed to load configuration" e))
  | Except.ok cfg =>
    match cfg.Profiles.lookup profileName with
    | none =>
      (w, some ("profile '" ++ profileName ++ "' not found. Available profiles: [" ++
        " ".intercalate (getProfileNames cfg) ++ "]"))
    | some profile =>
      let n := NewVM profile
      match n.2 with
      | some e => (w, some (wrap "failed to create VM" e))
      | none =>
        let vmInstance := n.1
        let s := vmInstance.Start env w
        match s.2.2 with
        | some e => (s.1, some (wrap "failed to start VM" e))
        | none =>
          let r := runSession env s.2.1 profile s.1
          let stop := s.2.1.Stop env r.1
          (stop.1, r.2)

/-! ## The validate-config command (`cmd/validate.go`) -/

/-- The function `validateProfile`. -/
def validateProfile (name : String) (profile : Profile) : Error :=
  if profile.VM.VCPUs ≤ 0 then
    some ("profile '" ++ name ++ "': VCPUs must be greater than 0")
  else if profile.VM.MemoryMiB ≤ 0 then
    some ("profile '" ++ name ++ "': MemoryMiB must be greater than 0")
  else none

/-- The loop of `joinErrors` from index `i` on, with `result` built so far. -/
def joinErrorsFrom : Nat → String → List String → String
  | _, result, [] => result
  | i, result, err :: rest =>
    joinErrorsFrom (i + 1) ((if i > 0 then result ++ "\n" else result) ++ ("  • " ++ err)) rest

/-- The function `joinErrors`. -/
def joinErrors (errors : List String) : String := joinErrorsFrom 0 "" errors

/-- The loop of `validateConfig` over the profiles, collecting the messages of
the profiles that fail (in the order of the association list; Go iterates the
map in an unspecified order). -/
def profileErrors (profiles : List (String × Profile)) : List String :=
  profiles.filterMap fun entry => validateProfile entry.1 entry.2

/-- The function `validateConfig`, from the outcome `file` of reading the
configuration file; what it prints on success is left out. -/
def validateConfig (env : Env σ) (file : Except String Config) : Error :=
  match Load env file with
  | Except.error e => some (wrap "configuration file has errors" e)
  | Except.ok cfg =>
    if cfg.Profiles.length = 0 then some "no profiles defined in configuration"
    else
      let errors := profileErrors cfg.Profiles
      if errors.length > 0 then some ("validation failed:\n" ++ joinErrors errors)
      else none

/-! ## The path functions of the Go standard library, on Unix -/

/-- The components of a path joined with single separators. -/
def joinComponents : List (List Char) → List Char
  | [] => []
  | [comp] => comp
  | comp :: rest => comp ++ '/' :: joinComponents rest

/-- One component in the loop of `filepath.Clean`, on the stack of components
kept so far (last kept first): an empty component and `.` are dropped, `..`
removes the last kept component when there is one to remove and is otherwise
kept unless the path is rooted, anything else is kept. -/
def cleanStep (rooted : Bool) (stack : List (List Char)) (comp : List Char) :
    List (List Char) :=
  if comp = [] ∨ comp = ['.'] then stack
  else if comp = ['.', '.'] then
    match stack with
    | top :: below => if top = ['.', '.'] then comp :: stack else below
    | [] => if rooted then [] else [comp]
  else comp :: stack

/-- The function `filepath.Clean`: the shortest path equivalent to `path` by
purely lexical processing; the empty path becomes `.`. -/
def Clean (path : String) : String :=
  if path = "" then "."
  else
    let rooted := path.data.head? = some '/'
    let stack := (splitAt (fun c => c = '/') path.data).foldl (cleanStep rooted) []
    if rooted then String.mk ('/' :: joinComponents stack.reverse)
    else if stack = [] then "."
    else String.mk (joinComponents stack.reverse)

/-- The function `filepath.Join`: the elements from the first non-empty one
on, joined with the separator and cleaned; the empty string when all are empty. -/
def filepathJoin : List String → String
  | [] => ""
  | e :: rest => if e = "" then filepathJoin rest else Clean ("/".intercalate (e :: rest))

/-! ## Devices used to state the theorems -/

/-- The errors the commands `argvs` answer when run one after the other from
state `s`, each on the state its predecessor left. -/
def commandErrors (env : Env σ) : σ → List (List String) → List Error
  | _, [] => []
  | s, argv :: rest => (env.run s argv).2 :: commandErrors env (env.run s argv).1 rest

/-- The state left by running the commands `argvs` one after the other from `s`. -/
def stateAfter (env : Env σ) : σ → List (List String) → σ
  | s, [] => s
  | s, argv :: rest => stateAfter env (env.run s argv).1 rest

/-- The errors the control calls `reqs` return when made one after the other
through `Client.request` from world `w`. -/
def callErrors (env : Env σ) (c : Client) : World σ → List Request → List Error
  | _, [] => []
  | w, r :: rest =>
    (c.request env w r.method r.endpoint r.body).2 ::
      callErrors env c (c.request env w r.method r.endpoint r.body).1 rest

/-- The control calls in a log, oldest first. -/
def requestsOf (log : List Event) : List Request :=
  log.filterMap fun e =>
    match e with
    | Event.request _ r => some r
    | _ => none

/-- The host commands in a log, oldest first. -/
def commandsOf (log : List Event) : List (List String) :=
  log.filterMap fun e =>
    match e with
    | Event.command argv => some argv
    | _ => none

/-- The host interface `Setup` settles on, from the outcome of the detection. -/
def hostInterfaceOf (detected : Except String String) : String :=
  match detected with
  | Except.ok dev => dev
  | Except.error _ => "eth0"

/-- The command sequence of `Setup` as the specification lists it, each with
whether its failure is fatal: remove the link (ignored), create the TAP, assign
the address with a /30 prefix, bring the link up, enable forwarding, accept
forwarding, delete the masquerade rule (ignored), append the masquerade rule. -/
def setupScript (tap tapIP hostInterface : String) : List (List String × Bool) :=
  [(["ip", "link", "del", tap], false),
   (["ip", "tuntap", "add", "dev", tap, "mode", "tap"], true),
   (["ip", "addr", "add", tapIP ++ "/30", "dev", tap], true),
   (["ip", "link", "set", "dev", tap, "up"], true),
   (["sh", "-c", "echo 1 > /proc/sys/net/ipv4/ip_forward"], true),
   (["iptables", "-P", "FORWARD", "ACCEPT"], true),
   (["iptables", "-t", "nat", "-D", "POSTROUTING", "-o", hostInterface, "-j", "MASQUERADE"],
     false),
   (["iptables", "-t", "nat", "-A", "POSTROUTING", "-o", hostInterface, "-j", "MASQUERADE"],
     true)]

/-- The number of leading steps that run before (and including) the first
fatal step that fails; all of them when none does. -/
def stepsRun : List (Bool × Error) → Nat
  | [] => 0
  | (fatal, err) :: rest => if fatal && err.isSome then 1 else 1 + stepsRun rest

/-- The five control calls of `Start` as the specification lists them. -/
def startRequests (kernelPath bootArgs rootfsPath mac tap : String) : List Request :=
  [{ method := "PUT", endpoint := "/logger",
     body := [("log_path", JVal.str "/tmp/sear-firecracker.log"), ("level", JVal.str "Debug"),
              ("show_level", JVal.bool true), ("show_log_origin", JVal.bool true)] },
   { method := "PUT", endpoint := "/boot-source",
     body := [("kernel_image_path", JVal.str kernelPath), ("boot_args", JVal.str bootArgs)] },
   { method := "PUT", endpoint := "/drives/rootfs",
     body := [("drive_id", JVal.str "rootfs"), ("path_on_host", JVal.str rootfsPath),
              ("is_root_device", JVal.bool true), ("is_read_only", JVal.bool false)] },
   { method := "PUT", endpoint := "/network-interfaces/net1",
     body := [("iface_id", JVal.str "net1"), ("guest_mac", JVal.str mac),
              ("host_dev_name", JVal.str tap)] },
   { method := "PUT", endpoint := "/actions",
     body := [("action_type", JVal.str "InstanceStart")] }]

/-! ## A model of the host, for statements about host network state -/

/-- The host network state: the names of the links and the rules of the NAT
table, each rule by the words that follow `-A` (chain first). -/
structure Host where
  links : List String
  rules : List (List String)
  deriving DecidableEq, Repr

/-- The masquerade rule of `hostInterface`, as stored in `Host.rules`. -/
def masquerade (hostInterface : String) : List String :=
  ["POSTROUTING", "-o", hostInterface, "-j", "MASQUERADE"]

/-- How the host answers a command: `ip link del` removes the link if present
and fails otherwise, `ip tuntap add` fails if the link exists, `iptables -D`
removes one matching rule and fails when there is none, `iptables -A` appends
the rule; every other command succeeds and changes neither links nor rules. -/
def hostRun (h : Host) (argv : List String) : Host × Error :=
  match argv with
  | ["ip", "link", "del", name] =>
    if name ∈ h.links then ({ h with links := h.links.filter fun l => l ≠ name }, none)
    else (h, some "exit status 1")
  | ["ip", "tuntap", "add", "dev", name, "mode", "tap"] =>
    if name ∈ h.links then (h, some "exit status 1")
    else ({ h with links := h.links ++ [name] }, none)
  | "iptables" :: "-t" :: "nat" :: "-D" :: rule =>
    if rule ∈ h.rules then ({ h with rules := h.rules.erase rule }, none)
    else (h, some "exit status 1")
  | "iptables" :: "-t" :: "nat" :: "-A" :: rule =>
    ({ h with rules := h.rules ++ [rule] }, none)
  | _ => (h, none)

/-- What a simulated outside answers, besides the host commands. -/
structure Scenario where
  /-- Answer to `ip -j route list default`. -/
  routesJSON : Except String String
  /-- Answer to `ip route show default`. -/
  routesText : Except String String
  /-- Whether the control socket is absent. -/
  socketMissing : Bool
  /-- Answer of the hypervisor to a request. -/
  answer : Request → Except String Nat
  /-- Remote commands that fail. -/
  remoteFails : String → Bool
  /-- Content of the process environment. -/
  getenv : String → String
  /-- The home directory. -/
  home : Except String String
  /-- The JSON decoder. -/
  decodeJSON : String → Option Json

/-- The simulated outside: host commands act on the `Host` model, everything
else is answered from the scenario and leaves the host unchanged. -/
def simEnv (sc : Scenario) : Env Host where
  run := hostRun
  output := fun h argv =>
    if argv = ["ip", "-j", "route", "list", "default"] then (h, sc.routesJSON)
    else if argv = ["ip", "route", "show", "default"] then (h, sc.routesText)
    else (h, Except.error "exit status 1")
  socketMissing := fun _ _ => sc.socketMissing
  roundTrip := fun h _ r => (h, sc.answer r)
  execute := fun h _ cmd => (h, if sc.remoteFails cmd then some "exit status 1" else none)
  shell := fun h _ => (h, none)
  getenv := sc.getenv
  userHomeDir := sc.home
  join := fun parts => "/".intercalate parts
  abs := fun path => Except.ok path
  getwd := Except.ok "/work"
  decodeJSON := sc.decodeJSON

/-- A scenario where everything works: the routing table names `wlan0`, the
hypervisor acknowledges every request with 200. -/
def happyScenario : Scenario where
  routesJSON := Except.error "exit status 255"
  routesText := Except.ok "default via 192.168.1.1 dev wlan0 proto dhcp metric 600\n"
  socketMissing := false
  answer := fun _ => Except.ok 200
  remoteFails := fun _ => false
  getenv := fun _ => ""
  home := Except.ok "/home/user"
  decodeJSON := fun _ => none

/-- The profile of the end-to-end scenario of the specification. -/
def demoProfile : Profile where
  VM := { VCPUs := 2, MemoryMiB := 1024, RootFS := "r", Kernel := "k", KernelArgs := "" }
  Tools := ["echo hi"]
  Network := none

/-- A host with no link and no NAT rule, and nothing issued yet. -/
def emptyWorld : World Host := { state := { links := [], rules := [] }, log := [] }

/-- A scenario where the hypervisor rejects the logger call and acknowledges the others. -/
def loggerRejected : Scenario :=
  { happyScenario with
    answer := fun r => if r.endpoint = "/logger" then Except.ok 400 else Except.ok 200 }

/-- A scenario where the hypervisor rejects the rootfs drive. -/
def rootfsRejected : Scenario :=
  { happyScenario with
    answer := fun r => if r.endpoint = "/drives/rootfs" then Except.ok 400 else Except.ok 200 }

/-- A scenario where the guest has no shared-filesystem support. -/
def noVirtiofs : Scenario :=
  { happyScenario with
    remoteFails := fun cmd =>
      cmd = "mount -t virtiofs -o allow_other,default_permissions sear_share /host" }

/-- The handle `GetSSHClient` builds for the demo profile in the simulated outside. -/
def demoHandle : SSHClient :=
  { client := { host := "172.16.0.2", port := 22, username := "root",
                privateKey := "/home/user/.config/sear/sear_key" } }

/-- A host that still has a TAP link of the configured name and a rule of
another interface. -/
def staleWorld : World Host :=
  { state := { links := ["lo", "tap0"], rules := [masquerade "eth1"] }, log := [] }

/-- A scenario where the hypervisor is not running: the control socket is absent. -/
def socketAbsent : Scenario :=
  { happyScenario with socketMissing := true }

/-- A scenario where the hypervisor acknowledges every request with 204 No Content. -/
def acknowledgedWithNoContent : Scenario :=
  { happyScenario with answer := fun _ => Except.ok 204 }

/-- A configuration holding the demo profile under the name `demo`. -/
def demoConfig : Config where
  DefaultProfile := "demo"
  Profiles := [("demo", demoProfile)]
  Network := none
  SSH := none

/-- The simulated outside with the path joining of the standard library. -/
def unixEnv (sc : Scenario) : Env Host :=
  { simEnv sc with join := filepathJoin }

/-- A profile that overrides the network: its own TAP device, addresses,
gateway and DNS server. -/
def overrideProfile : Profile where
  VM := { VCPUs := 1, MemoryMiB := 512, RootFS := "r", Kernel := "k", KernelArgs := "quiet" }
  Tools := []
  Network := some { TAPDevice := "tap7", TAPIP := "10.0.0.1", GuestIP := "10.0.0.2",
                    GatewayIP := "10.0.0.1", HostInterface := "", DNSServer := "9.9.9.9" }

/-- A profile with a zero vCPU count and a negative memory size. -/
def unsizedProfile : Profile where
  VM := { VCPUs := 0, MemoryMiB := -1, RootFS := "r", Kernel := "k", KernelArgs := "" }
  Tools := []
  Network := none

/-- A configuration holding the unsized profile under the name `bad`. -/
def unsizedConfig : Config where
  DefaultProfile := "bad"
  Profiles := [("bad", unsizedProfile)]
  Network := none
  SSH := none

/-- A configuration with a valid profile, one without vCPUs and one with
vCPUs but a negative memory size. -/
def mixedConfig : Config where
  DefaultProfile := "demo"
  Profiles :=
    [("demo", demoProfile), ("bad", unsizedProfile),
     ("small", { demoProfile with
        VM := { VCPUs := 1, MemoryMiB := -3, RootFS := "r", Kernel := "k", KernelArgs := "" } })]
  Network := none
  SSH := none

/-- The token rule of the detection in words: `dev` is the part that follows
the first occurrence of the word `dev`. -/
def tokenAfterDev (parts : List String) (dev : String) : Prop :=
  ∃ pre post, parts = pre ++ "dev" :: dev :: post ∧ "dev" ∉ pre

/-- The text rule of the detection in words: `dev` is the token following
`dev` on the first line of `output` that contains `default` and has such a token. -/
def textRule (output dev : String) : Prop :=
  ∃ before line after, splitLines output = before ++ line :: after ∧
    contains line "default" = true ∧ tokenAfterDev (fields line) dev ∧
    ∀ l ∈ before, contains l "default" = true → ∀ d, ¬tokenAfterDev (fields l) d

/-- The JSON rule of the detection in words: `output` starts with `[`, decodes
to an array of routes (objects or nulls) in which every number is within the
float64 range, the first route is an object and its `dev` field is the string
`dev`. -/
def jsonRule (env : Env σ) (output dev : String) : Prop :=
  output.data.head? = some '[' ∧
  ∃ kvs rest, env.decodeJSON output = some (Json.arr (Json.obj kvs :: rest)) ∧
    rest.all isRoute = true ∧ numbersFit (Json.arr (Json.obj kvs :: rest)) = true ∧
    lookupField "dev" kvs = some (Json.str dev)

/-- A scenario where the structured query answers an empty array although the
human-readable query names `wlan0`. -/
def emptyRouteArray : Scenario :=
  { happyScenario with
    routesJSON := Except.ok "[]"
    routesText := Except.ok "default via 192.168.1.1 dev wlan0 proto dhcp metric 600\n"
    decodeJSON := fun doc => if doc = "[]" then some (Json.arr []) else none }

/-- A scenario where the structured query answers one route through `enp3s0`. -/
def structuredRoute : Scenario :=
  { happyScenario with
    routesJSON := Except.ok
      "[\x7b\"dst\":\"default\",\"gateway\":\"192.168.1.1\",\"dev\":\"enp3s0\",\"metric\":600\x7d]"
    decodeJSON := fun doc =>
      if doc = "[\x7b\"dst\":\"default\",\"gateway\":\"192.168.1.1\",\"dev\":\"enp3s0\",\"metric\":600\x7d]" then
        some (Json.arr [Json.obj [("dst", Json.str "default"),
          ("gateway", Json.str "192.168.1.1"), ("dev", Json.str "enp3s0"),
          ("metric", Json.num "600")]])
      else none }

/-- A scenario where the structured query answers a route through `eth0` whose
metric is a number beyond the float64 range. -/
def hugeMetric : Scenario :=
  { happyScenario with
    routesJSON := Except.ok "[\x7b\"dst\":\"default\",\"dev\":\"eth0\",\"metric\":1e999\x7d]"
    decodeJSON := fun doc =>
      if doc = "[\x7b\"dst\":\"default\",\"dev\":\"eth0\",\"metric\":1e999\x7d]" then
        some (Json.arr [Json.obj [("dst", Json.str "default"), ("dev", Json.str "eth0"),
          ("metric", Json.num "1e999")]])
      else none }

/-- A scenario where the remote-access key path is overridden in the environment. -/
def keyOverridden : Scenario :=
  { happyScenario with
    getenv := fun key => if key = "SEAR_SSH_KEY" then "/keys/id_ed25519" else "" }

/-! ## Lemmas on the network manager -/

/-- Detection only appends queries to the log: no control call, no host command. -/
theorem detectHostInterface_log (env : Env σ) (w : World σ) :
    ∃ queries, (detectHostInterface env w).1.log = w.log ++ queries ∧
      requestsOf queries = [] ∧ commandsOf queries = [] := by
  simp only [detectHostInterface, commandOutput]
  split
  · exact ⟨_, rfl, rfl, rfl⟩
  · split
    · exact ⟨[Event.query ["ip", "-j", "route", "list", "default"],
        Event.query ["ip", "route", "show", "default"]], by simp, rfl, rfl⟩
    · exact ⟨[Event.query ["ip", "-j", "route", "list", "default"],
        Event.query ["ip", "route", "show", "default"]], by simp, rfl, rfl⟩

/-- A block of host commands holds no control call. -/
theorem requestsOf_commands (cmds : List (List String × Bool)) :
    requestsOf (cmds.map fun step => Event.command step.1) = [] := by
  induction cmds with
  | nil => rfl
  | cons c cs ih => simp [requestsOf]

/-- What `Setup` does, in full: the manager it leaves, the commands it issues
after the detection, the state it leaves and when it returns nil. -/
theorem Setup_spec (env : Env σ) (m : Manager) (w : World σ) :
    let d := detectHostInterface env w
    let script := setupScript m.TAPDevice m.TAPIP (hostInterfaceOf d.2)
    let errs := commandErrors env d.1.state (script.map Prod.fst)
    let n := stepsRun ((script.map Prod.snd).zip errs)
    let r := Setup env m w
    r.2.1 = { m with HostInterface := hostInterfaceOf d.2 } ∧
    r.1.log = d.1.log ++ (script.take n).map (fun step => Event.command step.1) ∧
    r.1.state = stateAfter env d.1.state ((script.take n).map Prod.fst) ∧
    (r.2.2 = none ↔ ∀ p ∈ (script.map Prod.snd).zip errs, p.1 = true → p.2 = none) := by
  intro d script errs n r
  have hm : (match d.2 with
      | Except.error _ => { m with HostInterface := "eth0" }
      | Except.ok hostInterface => { m with HostInterface := hostInterface }) =
      ({ m with HostInterface := hostInterfaceOf d.2 } : Manager) := by
    cases d.2 <;> rfl
  simp only [r, n, errs, script, Setup, hm, setupTAPDevice, enableIPForwarding,
    configureNAT, runCommand, setupScript, commandErrors, stateAfter, stepsRun, List.map,
    List.zip, List.zipWith]
  generalize hostInterfaceOf d.2 = iface
  generalize d.1 = w0
  generalize h0 : env.run w0.state _ = p0
  generalize h1 : env.run p0.1 _ = p1
  obtain ⟨s1, _ | e1⟩ := p1
  swap
  · simp [stateAfter, h0, h1]
  simp only []
  generalize h2 : env.run s1 _ = p2
  obtain ⟨s2, _ | e2⟩ := p2
  swap
  · simp [stateAfter, h0, h1, h2]
  simp only []
  generalize h3 : env.run s2 _ = p3
  obtain ⟨s3, _ | e3⟩ := p3
  swap
  · simp [stateAfter, h0, h1, h2, h3]
  simp only []
  generalize h4 : env.run s3 _ = p4
  obtain ⟨s4, _ | e4⟩ := p4
  swap
  · simp [stateAfter, h0, h1, h2, h3, h4]
  simp only []
  generalize h5 : env.run s4 _ = p5
  obtain ⟨s5, _ | e5⟩ := p5
  swap
  · simp [stateAfter, h0, h1, h2, h3, h4, h5]
  simp only []
  generalize h6 : env.run s5 _ = p6
  generalize h7 : env.run p6.1 _ = p7
  obtain ⟨s7, _ | e7⟩ := p7
  · simp [stateAfter, h0, h1, h2, h3, h4, h5, h6, h7]
  · simp [stateAfter, h0, h1, h2, h3, h4, h5, h6, h7]

/-- The manager `Setup` leaves: the given one with the host interface settled. -/
theorem Setup_manager (env : Env σ) (m : Manager) (w : World σ) :
    (Setup env m w).2.1 =
      { m with HostInterface := hostInterfaceOf (detectHostInterface env w).2 } :=
  (Setup_spec env m w).1

/-- The call `Setup` appends only queries and host commands to the log. -/
theorem Setup_log (env : Env σ) (m : Manager) (w : World σ) :
    ∃ evs, (Setup env m w).1.log = w.log ++ evs ∧ requestsOf evs = [] := by
  have h := (Setup_spec env m w).2.1
  simp only at h
  obtain ⟨queries, hq, hr, _⟩ := detectHostInterface_log env w
  rw [hq, List.append_assoc] at h
  refine ⟨_, h, ?_⟩
  unfold requestsOf at hr ⊢
  rw [List.filterMap_append, hr]
  exact requestsOf_commands _

/-- What `Teardown` does, whatever the commands answer. -/
theorem Teardown_spec (env : Env σ) (m : Manager) (w : World σ) :
    (Teardown env m w).2 = none ∧
    (Teardown env m w).1.log = w.log ++
      [Event.command ["ip", "link", "del", m.TAPDevice],
       Event.command ["iptables", "-t", "nat", "-D", "POSTROUTING", "-o", m.HostInterface,
         "-j", "MASQUERADE"]] ∧
    (Teardown env m w).1.state = stateAfter env w.state
      [["ip", "link", "del", m.TAPDevice],
       ["iptables", "-t", "nat", "-D", "POSTROUTING", "-o", m.HostInterface, "-j",
         "MASQUERADE"]] := by
  simp [Teardown, removeTAPDevice, removeNAT, runCommand, stateAfter]

/-- The manager a VM holds after `Start`, whatever the outcome of `Start`. -/
theorem Start_netManager (env : Env σ) (v : VM) (w : World σ) :
    (v.Start env w).2.1.netManager =
      some { TAPDevice := v.getEffectiveNetworkConfig.TAPDevice,
             TAPIP := v.getEffectiveNetworkConfig.TAPIP,
             GatewayIP := v.getEffectiveNetworkConfig.GatewayIP,
             HostInterface := hostInterfaceOf (detectHostInterface env w).2 } := by
  have hm := Setup_manager env (NewManager v.getEffectiveNetworkConfig.TAPDevice
    v.getEffectiveNetworkConfig.TAPIP v.getEffectiveNetworkConfig.GatewayIP) w
  simp only [NewManager] at hm
  simp only [VM.Start, NewManager]
  split
  · simp [hm]
  · split
    · simp [hm]
    · split
      · simp [hm]
      · split
        · simp [hm]
        · split
          · simp [hm]
          · split <;> simp [hm]

/-! ## Lemmas on `Start` -/

/-- The log after a control call: the request is appended, whatever the answer. -/
theorem request_log (env : Env σ) (c : Client) (w : World σ) (method endpoint : String)
    (data : List (String × JVal)) :
    (c.request env w method endpoint data).1.log =
      w.log ++ [Event.request c.socketPath
        { method := method, endpoint := endpoint, body := data }] := by
  simp only [Client.request]
  split
  · rfl
  · split <;> rfl

/-- Once the network is set up and the client constructed, `Start` makes the
listed control calls up to the first fatal one that fails, and returns that
call's error under the name of its step. -/
theorem Start_calls (env : Env σ) (v : VM) (w : World σ) (c : Client) :
    let cfg := v.getEffectiveNetworkConfig
    let s := Setup env (NewManager cfg.TAPDevice cfg.TAPIP cfg.GatewayIP) w
    let reqs := startRequests (expandPath env v.profile.VM.Kernel)
      (if v.profile.VM.KernelArgs ≠ "" then v.profile.VM.KernelArgs
        else "console=ttyS0 reboot=k panic=1")
      (expandPath env v.profile.VM.RootFS) (GetMACAddress s.2.1) cfg.TAPDevice
    let errs := callErrors env c s.1 reqs
    s.2.2 = none →
    NewClient env s.1 (socketPath env) = Except.ok c →
    ∃ e0 e1 e2 e3 e4, errs = [e0, e1, e2, e3, e4] ∧
      (v.Start env w).1.log = s.1.log ++
        (reqs.take (stepsRun [(false, e0), (true, e1), (true, e2), (true, e3), (true, e4)])).map
          (Event.request (socketPath env)) ∧
      (v.Start env w).2.2 =
        match e1, e2, e3, e4 with
        | some e, _, _, _ => some (wrap "failed to set boot source" e)
        | none, some e, _, _ => some (wrap "failed to attach rootfs" e)
        | none, none, some e, _ => some (wrap "failed to attach network" e)
        | none, none, none, some e => some (wrap "failed to start instance" e)
        | none, none, none, none => none := by
  intro cfg s reqs errs hs hc
  have hpath : c.socketPath = socketPath env := by
    unfold NewClient at hc
    split at hc
    · exact absurd hc (by simp)
    · simp only [Except.ok.injEq] at hc
      rw [← hc]
  have htap : s.2.1.TAPDevice = cfg.TAPDevice := by
    simp only [s, Setup_manager, NewManager]
  have hdrive : "/drives/" ++ "rootfs" = "/drives/rootfs" := by decide
  have hnet : "/network-interfaces/" ++ "net1" = "/network-interfaces/net1" := by decide
  simp only [errs, reqs, callErrors, startRequests]
  simp only [VM.Start, hs, hc, Client.ConfigureLogger, Client.SetBootSource, kernelArgs,
    Client.AttachRootfs, Client.AttachNetwork, Client.StartInstance, hdrive, hnet, cfg, s,
    htap] at *
  generalize Setup env _ w = s0 at *
  simp only [hs, htap]
  generalize h0 : c.request env s0.1 "PUT" "/logger" _ = q0
  generalize h1 : c.request env q0.1 "PUT" "/boot-source" _ = q1
  obtain ⟨w1, _ | e1⟩ := q1
  swap
  · refine ⟨_, _, _, _, _, rfl, ?_, ?_⟩
    · have l0 := congrArg (fun q => q.1.log) h0
      have l1 := congrArg (fun q => q.1.log) h1
      simp only [request_log, hpath] at l0 l1
      simp [stepsRun, ← l1, ← l0]
    · simp
  simp only []
  generalize h2 : c.request env w1 "PUT" "/drives/rootfs" _ = q2
  obtain ⟨w2, _ | e2⟩ := q2
  swap
  · refine ⟨_, _, _, _, _, rfl, ?_, ?_⟩
    · have l0 := congrArg (fun q => q.1.log) h0
      have l1 := congrArg (fun q => q.1.log) h1
      have l2 := congrArg (fun q => q.1.log) h2
      simp only [request_log, hpath] at l0 l1 l2
      simp [stepsRun, ← l2, ← l1, ← l0]
    · simp
  simp only []
  generalize h3 : c.request env w2 "PUT" "/network-interfaces/net1" _ = q3
  obtain ⟨w3, _ | e3⟩ := q3
  swap
  · refine ⟨_, _, _, _, _, rfl, ?_, ?_⟩
    · have l0 := congrArg (fun q => q.1.log) h0
      have l1 := congrArg (fun q => q.1.log) h1
      have l2 := congrArg (fun q => q.1.log) h2
      have l3 := congrArg (fun q => q.1.log) h3
      simp only [request_log, hpath] at l0 l1 l2 l3
      simp [stepsRun, ← l3, ← l2, ← l1, ← l0]
    · simp
  simp only []
  generalize h4 : c.request env w3 "PUT" "/actions" _ = q4
  obtain ⟨w4, _ | e4⟩ := q4
  · refine ⟨_, _, _, _, _, rfl, ?_, ?_⟩
    · have l0 := congrArg (fun q => q.1.log) h0
      have l1 := congrArg (fun q => q.1.log) h1
      have l2 := congrArg (fun q => q.1.log) h2
      have l3 := congrArg (fun q => q.1.log) h3
      have l4 := congrArg (fun q => q.1.log) h4
      simp only [request_log, hpath] at l0 l1 l2 l3 l4
      simp [stepsRun, ← l4, ← l3, ← l2, ← l1, ← l0]
    · simp
  · refine ⟨_, _, _, _, _, rfl, ?_, ?_⟩
    · have l0 := congrArg (fun q => q.1.log) h0
      have l1 := congrArg (fun q => q.1.log) h1
      have l2 := congrArg (fun q => q.1.log) h2
      have l3 := congrArg (fun q => q.1.log) h3
      have l4 := congrArg (fun q => q.1.log) h4
      simp only [request_log, hpath] at l0 l1 l2 l3 l4
      simp [stepsRun, ← l4, ← l3, ← l2, ← l1, ← l0]
    · simp

/-- The control calls in a block of control calls. -/
theorem requestsOf_requests (socket : String) (reqs : List Request) :
    requestsOf (reqs.map (Event.request socket)) = reqs := by
  induction reqs with
  | nil => rfl
  | cons r rs ih =>
    unfold requestsOf at ih ⊢
    simp only [List.map_cons, List.filterMap_cons, ih]

/-- The control calls of a log are those of its parts. -/
theorem requestsOf_append (xs ys : List Event) :
    requestsOf (xs ++ ys) = requestsOf xs ++ requestsOf ys := by
  unfold requestsOf
  exact List.filterMap_append _ _ _

/-! ## Lemmas on the host model -/

/-- The host model on `ip link del`. -/
theorem hostRun_del (h : Host) (t : String) :
    hostRun h ["ip", "link", "del", t] =
      if t ∈ h.links then ({ h with links := h.links.filter fun l => l ≠ t }, none)
      else (h, some "exit status 1") := by
  rfl

/-- The host model on `ip tuntap add`. -/
theorem hostRun_add (h : Host) (t : String) :
    hostRun h ["ip", "tuntap", "add", "dev", t, "mode", "tap"] =
      if t ∈ h.links then (h, some "exit status 1")
      else ({ h with links := h.links ++ [t] }, none) := by
  rfl

/-- The host model on `ip addr add`: accepted, nothing changes. -/
theorem hostRun_addr (h : Host) (ip t : String) :
    hostRun h ["ip", "addr", "add", ip, "dev", t] = (h, none) := by
  rfl

/-- The host model on `ip link set up`: accepted, nothing changes. -/
theorem hostRun_up (h : Host) (t : String) :
    hostRun h ["ip", "link", "set", "dev", t, "up"] = (h, none) := by
  rfl

/-- The host model on enabling forwarding: accepted, nothing changes. -/
theorem hostRun_forward (h : Host) :
    hostRun h ["sh", "-c", "echo 1 > /proc/sys/net/ipv4/ip_forward"] = (h, none) := by
  rfl

/-- The host model on the FORWARD policy: accepted, nothing changes. -/
theorem hostRun_policy (h : Host) :
    hostRun h ["iptables", "-P", "FORWARD", "ACCEPT"] = (h, none) := by
  rfl

/-- The host model on deleting the masquerade rule. -/
theorem hostRun_delete (h : Host) (i : String) :
    hostRun h ["iptables", "-t", "nat", "-D", "POSTROUTING", "-o", i, "-j", "MASQUERADE"] =
      if masquerade i ∈ h.rules then ({ h with rules := h.rules.erase (masquerade i) }, none)
      else (h, some "exit status 1") := by
  rfl

/-- The host model on appending the masquerade rule. -/
theorem hostRun_append (h : Host) (i : String) :
    hostRun h ["iptables", "-t", "nat", "-A", "POSTROUTING", "-o", i, "-j", "MASQUERADE"] =
      ({ h with rules := h.rules ++ [masquerade i] }, none) := by
  rfl



/-- Queries that leave the host unchanged make detection leave it unchanged. -/
theorem detectHostInterface_state (env : Env Host)
    (hquery : ∀ h argv, (env.output h argv).1 = h) (w : World Host) :
    (detectHostInterface env w).1.state = w.state := by
  simp only [detectHostInterface, commandOutput]
  split
  · exact hquery _ _
  · split
    · simp only [hquery]
    · simp only [hquery]

/-- On the host model `Setup` always succeeds, and leaves the TAP link once
and the masquerade rule of the detected interface appended after one removal. -/
theorem Setup_on_host (env : Env Host) (hrun : env.run = hostRun)
    (hquery : ∀ h argv, (env.output h argv).1 = h) (m : Manager) (w : World Host) :
    (Setup env m w).2.2 = none ∧
    (Setup env m w).1.state =
      { links := (w.state.links.filter fun l => l ≠ m.TAPDevice) ++ [m.TAPDevice],
        rules := w.state.rules.erase
            (masquerade (hostInterfaceOf (detectHostInterface env w).2)) ++
          [masquerade (hostInterfaceOf (detectHostInterface env w).2)] } := by
  have hm : (match (detectHostInterface env w).2 with
      | Except.error _ => { m with HostInterface := "eth0" }
      | Except.ok hostInterface => { m with HostInterface := hostInterface }) =
      ({ m with HostInterface := hostInterfaceOf (detectHostInterface env w).2 } : Manager) := by
    cases (detectHostInterface env w).2 <;> rfl
  have hd := detectHostInterface_state env hquery w
  simp only [Setup, hm, setupTAPDevice, enableIPForwarding, configureNAT, runCommand, hrun,
    hostRun_del, hostRun_add, hostRun_addr, hostRun_up, hostRun_forward, hostRun_policy,
    hostRun_delete, hostRun_append, hd]
  generalize hostInterfaceOf (detectHostInterface env w).2 = iface
  have hf : m.TAPDevice ∉ w.state.links →
      (w.state.links.filter fun l => l ≠ m.TAPDevice) = w.state.links := by
    intro hmem
    rw [List.filter_eq_self]
    intro a ha
    simp only [ne_eq, decide_not, Bool.not_eq_true', decide_eq_false_iff_not]
    rintro rfl
    exact hmem ha
  by_cases h1 : m.TAPDevice ∈ w.state.links <;>
    by_cases h2 : masquerade iface ∈ w.state.rules <;>
    simp [h1, h2, List.erase_of_not_mem]
  all_goals simpa using (hf h1).symm

/-! ## The claims -/

/-- C1: when network setup succeeds, the control client is constructed and the
boot-source, rootfs, network-interface and start-instance calls succeed, `Start`
returns nil and the control calls it issues are exactly the five listed ones, in
order, whatever the logger call answers. -/
theorem Start_issues_five_control_calls (env : Env σ) (v : VM) (w : World σ) (c : Client)
    (loggerErr : Error) :
    let cfg := v.getEffectiveNetworkConfig
    let s := Setup env (NewManager cfg.TAPDevice cfg.TAPIP cfg.GatewayIP) w
    let reqs := startRequests (expandPath env v.profile.VM.Kernel)
      (if v.profile.VM.KernelArgs ≠ "" then v.profile.VM.KernelArgs
        else "console=ttyS0 reboot=k panic=1")
      (expandPath env v.profile.VM.RootFS) (GetMACAddress s.2.1) cfg.TAPDevice
    s.2.2 = none →
    NewClient env s.1 (socketPath env) = Except.ok c →
    callErrors env c s.1 reqs = [loggerErr, none, none, none, none] →
    (v.Start env w).2.2 = none ∧
    (v.Start env w).1.log = s.1.log ++ reqs.map (Event.request (socketPath env)) ∧
    requestsOf ((v.Start env w).1.log.drop w.log.length) = reqs := by
  intro cfg s reqs hs hc herrs
  obtain ⟨e0, e1, e2, e3, e4, he, hlog, herr⟩ := Start_calls env v w c hs hc
  rw [herrs] at he
  simp only [List.cons.injEq, and_true] at he
  obtain ⟨rfl, rfl, rfl, rfl, rfl⟩ := he
  have hlog2 : (v.Start env w).1.log = s.1.log ++ reqs.map (Event.request (socketPath env)) := by
    rw [hlog]
    simp [stepsRun, reqs, startRequests]
  refine ⟨by rw [herr], hlog2, ?_⟩
  obtain ⟨evs, hevs, hnone⟩ := Setup_log env (NewManager cfg.TAPDevice cfg.TAPIP cfg.GatewayIP) w
  rw [hlog2]
  show requestsOf (List.drop w.log.length
    ((Setup env (NewManager cfg.TAPDevice cfg.TAPIP cfg.GatewayIP) w).1.log ++ _)) = _
  rw [hevs, List.append_assoc, List.drop_left, requestsOf_append, hnone, requestsOf_requests]
  rfl

/-- C1, at the demo profile with the logger call rejected. -/
theorem Start_issues_five_control_calls_witness :
    (Setup (simEnv loggerRejected) (NewManager "tap0" "172.16.0.1" "172.16.0.1")
      emptyWorld).2.2 = none ∧
    ((NewVM demoProfile).1.Start (simEnv loggerRejected) emptyWorld).2.2 = none ∧
    requestsOf ((NewVM demoProfile).1.Start (simEnv loggerRejected) emptyWorld).1.log =
      startRequests "k" "console=ttyS0 reboot=k panic=1" "r" "06:00:AC:10:00:02" "tap0" :=
  have h := Start_issues_five_control_calls (simEnv loggerRejected) (NewVM demoProfile).1
    emptyWorld { socketPath := "/tmp/firecracker.socket" }
    (some "API request failed with status: 400") (by decide) rfl (by decide)
  ⟨by decide, h.1, h.2.2⟩

/-- C2: for each fatal step of `Start` (network setup, control-client
construction, set-boot-source, attach-rootfs, attach-network, start-instance),
when it is the first to fail `Start` returns an error naming that step, and the
control calls issued stop there: none when the network setup or the client
construction fails, otherwise the listed calls up to and including the failed one. -/
theorem Start_aborts_at_first_fatal_failure (env : Env σ) (v : VM) (w : World σ) :
    let cfg := v.getEffectiveNetworkConfig
    let s := Setup env (NewManager cfg.TAPDevice cfg.TAPIP cfg.GatewayIP) w
    let reqs := startRequests (expandPath env v.profile.VM.Kernel)
      (if v.profile.VM.KernelArgs ≠ "" then v.profile.VM.KernelArgs
        else "console=ttyS0 reboot=k panic=1")
      (expandPath env v.profile.VM.RootFS) (GetMACAddress s.2.1) cfg.TAPDevice
    let calls := fun n => s.1.log ++ (reqs.take n).map (Event.request (socketPath env))
    let r := v.Start env w
    requestsOf (s.1.log.drop w.log.length) = [] ∧
    (∀ e, s.2.2 = some e →
      r.2.2 = some (wrap "failed to setup network" e) ∧ r.1.log = s.1.log) ∧
    (∀ e, s.2.2 = none → NewClient env s.1 (socketPath env) = Except.error e →
      r.2.2 = some (wrap "failed to connect to Firecracker" e) ∧ r.1.log = s.1.log) ∧
    (∀ c e0 e1 e2 e3 e4, s.2.2 = none → NewClient env s.1 (socketPath env) = Except.ok c →
      callErrors env c s.1 reqs = [e0, e1, e2, e3, e4] →
      (∀ e, e1 = some e →
        r.2.2 = some (wrap "failed to set boot source" e) ∧ r.1.log = calls 2) ∧
      (∀ e, e1 = none → e2 = some e →
        r.2.2 = some (wrap "failed to attach rootfs" e) ∧ r.1.log = calls 3) ∧
      (∀ e, e1 = none → e2 = none → e3 = some e →
        r.2.2 = some (wrap "failed to attach network" e) ∧ r.1.log = calls 4) ∧
      (∀ e, e1 = none → e2 = none → e3 = none → e4 = some e →
        r.2.2 = some (wrap "failed to start instance" e) ∧ r.1.log = calls 5)) := by
  intro cfg s reqs calls r
  refine ⟨?_, ?_, ?_, ?_⟩
  · obtain ⟨evs, hevs, hnone⟩ :=
      Setup_log env (NewManager cfg.TAPDevice cfg.TAPIP cfg.GatewayIP) w
    show requestsOf (List.drop w.log.length
      (Setup env (NewManager cfg.TAPDevice cfg.TAPIP cfg.GatewayIP) w).1.log) = []
    rw [hevs, List.drop_left, hnone]
  · intro e hs
    simp only [s, cfg] at hs
    simp [r, VM.Start, hs]
  · intro e hs hc
    simp only [s, cfg] at hs hc
    simp [r, VM.Start, hs, hc]
  · intro c e0 e1 e2 e3 e4 hs hc herrs
    obtain ⟨a0, a1, a2, a3, a4, he, hlog, herr⟩ := Start_calls env v w c hs hc
    have he2 : [e0, e1, e2, e3, e4] = [a0, a1, a2, a3, a4] := herrs.symm.trans he
    simp only [List.cons.injEq, and_true] at he2
    obtain ⟨rfl, rfl, rfl, rfl, rfl⟩ := he2
    refine ⟨?_, ?_, ?_, ?_⟩
    · rintro e rfl
      exact ⟨herr, by simp only [r, hlog]; simp [stepsRun, calls, s, cfg, reqs]⟩
    · rintro e rfl rfl
      exact ⟨herr, by simp only [r, hlog]; simp [stepsRun, calls, s, cfg, reqs]⟩
    · rintro e rfl rfl rfl
      exact ⟨herr, by simp only [r, hlog]; simp [stepsRun, calls, s, cfg, reqs]⟩
    · rintro e rfl rfl rfl rfl
      exact ⟨herr, by simp only [r, hlog]; simp [stepsRun, calls, s, cfg, reqs]⟩

/-- C2, at the demo profile with the rootfs call rejected: the error names the
step and the control calls stop after the third. -/
theorem Start_aborts_at_first_fatal_failure_witness :
    ((NewVM demoProfile).1.Start (simEnv rootfsRejected) emptyWorld).2.2 =
      some "failed to attach rootfs: API request failed with status: 400" ∧
    requestsOf ((NewVM demoProfile).1.Start (simEnv rootfsRejected) emptyWorld).1.log =
      (startRequests "k" "console=ttyS0 reboot=k panic=1" "r" "06:00:AC:10:00:02"
        "tap0").take 3 :=
  have h := ((Start_aborts_at_first_fatal_failure (simEnv rootfsRejected) (NewVM demoProfile).1
    emptyWorld).2.2.2 { socketPath := "/tmp/firecracker.socket" } none none
    (some "API request failed with status: 400") none none (by decide) rfl
    (by decide)).2.1 "API request failed with status: 400" rfl rfl
  ⟨h.1, by rw [h.2]; decide⟩

/-- C3 (what the code does): with the control socket absent, `Start` fails after
`Setup` created the TAP link and the masquerade rule; `runProfile` returns that
error having issued the setup commands only, and link and rule are still there. -/
theorem runProfile_leaves_network_after_failed_Start :
    (runProfile (simEnv socketAbsent) (Except.ok demoConfig) "demo" emptyWorld).2 =
      some ("failed to start VM: failed to connect to Firecracker: " ++
        "Firecracker socket not found: /tmp/firecracker.socket") ∧
    (runProfile (simEnv socketAbsent) (Except.ok demoConfig) "demo" emptyWorld).1.state =
      { links := ["tap0"], rules := [masquerade "wlan0"] } ∧
    commandsOf (runProfile (simEnv socketAbsent) (Except.ok demoConfig) "demo"
        emptyWorld).1.log =
      (setupScript "tap0" "172.16.0.1" "wlan0").map Prod.fst := by
  decide

/-- C4: `Stop` on a VM fresh from `NewVM` returns nil and leaves the world
untouched (nothing issued); and on every VM, `Stop` called twice in a row
returns nil both times, whatever the teardown commands answer. -/
theorem Stop_safe_and_idempotent (env : Env σ) (profile : Profile) (v : VM) (w : World σ) :
    (NewVM profile).1.Stop env w = (w, none) ∧
    (v.Stop env w).2 = none ∧
    (v.Stop env (v.Stop env w).1).2 = none := by
  refine ⟨rfl, ?_, ?_⟩
  · unfold VM.Stop
    split <;> rfl
  · unfold VM.Stop
    split <;> rfl

/-- C5: `Teardown` issues the TAP removal and then the masquerade-rule removal,
each on the state its predecessor left and whatever either answers, and returns
nil; and `Stop` after `Start`, whatever the outcome of `Start`, issues both
removals, for the resolved TAP device and the interface `Setup` settled on. -/
theorem Teardown_best_effort_and_complete (env : Env σ) (m : Manager) (v : VM)
    (w : World σ) :
    let removals := fun (tap hostInterface : String) =>
      [["ip", "link", "del", tap],
       ["iptables", "-t", "nat", "-D", "POSTROUTING", "-o", hostInterface, "-j", "MASQUERADE"]]
    let started := v.Start env w
    (Teardown env m w).2 = none ∧
    (Teardown env m w).1.log =
      w.log ++ (removals m.TAPDevice m.HostInterface).map Event.command ∧
    (Teardown env m w).1.state =
      stateAfter env w.state (removals m.TAPDevice m.HostInterface) ∧
    (started.2.1.Stop env started.1).2 = none ∧
    (started.2.1.Stop env started.1).1.log =
      started.1.log ++
        (removals v.getEffectiveNetworkConfig.TAPDevice
          (hostInterfaceOf (detectHostInterface env w).2)).map Event.command := by
  intro removals started
  obtain ⟨h1, h2, h3⟩ := Teardown_spec env m w
  refine ⟨h1, h2, h3, ?_, ?_⟩
  · simp only [VM.Stop, started, Start_netManager]
  · simp only [VM.Stop, started, Start_netManager]
    exact (Teardown_spec env _ _).2.1

/-- C6 (what the code does): two managers with different gateway addresses
produce the same MAC address. -/
theorem GetMACAddress_same_for_different_gateways :
    (NewManager "tap0" "172.16.0.1" "172.16.0.1").GatewayIP ≠
      (NewManager "tap1" "10.0.0.1" "10.0.0.1").GatewayIP ∧
    GetMACAddress (NewManager "tap0" "172.16.0.1" "172.16.0.1") =
      GetMACAddress (NewManager "tap1" "10.0.0.1" "10.0.0.1") := by
  decide

/-- C7: once the mount point is created, `MountDirectory` issues the
shared-filesystem mount; the bind mount of the absolute host path is issued
exactly when that mount fails; and an error is returned exactly when both fail. -/
theorem MountDirectory_falls_back_to_bind_mount (env : Env σ) (v : VM) (c : SSHClient)
    (w : World σ) (hostPath absPath : String) :
    let created := c.ExecuteCommand env w "mkdir -p /host"
    let shared := c.ExecuteCommand env created.1
      "mount -t virtiofs -o allow_other,default_permissions sear_share /host"
    let bind := c.ExecuteCommand env shared.1 ("mount --bind " ++ absPath ++ " /host")
    let r := v.MountDirectory env c w hostPath
    env.abs hostPath = Except.ok absPath →
    created.2 = none →
    r.1.log = created.1.log ++
      (if shared.2 = none then
        [Event.remote c.client
          "mount -t virtiofs -o allow_other,default_permissions sear_share /host"]
      else
        [Event.remote c.client
          "mount -t virtiofs -o allow_other,default_permissions sear_share /host",
         Event.remote c.client ("mount --bind " ++ absPath ++ " /host")]) ∧
    (r.2 ≠ none ↔ shared.2 ≠ none ∧ bind.2 ≠ none) ∧
    (∀ e, shared.2 ≠ none → bind.2 = some e →
      r.2 = some (wrap "failed to mount directory" e)) := by
  intro created shared bind r habs hcreated
  have hpoint : "mkdir -p " ++ "/host" = "mkdir -p /host" := by decide
  have hshared : "mount -t virtiofs -o allow_other,default_permissions sear_share " ++ "/host" =
      "mount -t virtiofs -o allow_other,default_permissions sear_share /host" := by decide
  have hbind : "mount --bind " ++ absPath ++ " " ++ "/host" =
      "mount --bind " ++ absPath ++ " /host" := by
    rw [String.append_assoc ("mount --bind " ++ absPath)]
    rfl
  simp only [r, VM.MountDirectory, habs, hpoint, hshared, hbind]
  simp only [created] at hcreated
  simp only [hcreated]
  cases hs : shared.2 with
  | none =>
    simp only [shared, created] at hs
    simp [hs, shared, created, SSHClient.ExecuteCommand]
  | some e =>
    simp only [shared, created] at hs
    simp only [hs]
    cases hb : bind.2 with
    | none =>
      simp only [bind, shared, created] at hb
      simp [hb, shared, created, SSHClient.ExecuteCommand]
    | some e2 =>
      simp only [bind, shared, created] at hb
      simp [hb, shared, created, SSHClient.ExecuteCommand]

/-- C7, in a guest without shared-filesystem support: the bind mount of the
host path follows the failed mount and no error is returned. -/
theorem MountDirectory_falls_back_to_bind_mount_witness :
    (simEnv noVirtiofs).abs "/work" = Except.ok "/work" ∧
    ((NewVM demoProfile).1.MountDirectory (simEnv noVirtiofs) demoHandle emptyWorld
      "/work").1.log =
      [Event.remote demoHandle.client "mkdir -p /host",
       Event.remote demoHandle.client
         "mount -t virtiofs -o allow_other,default_permissions sear_share /host",
       Event.remote demoHandle.client "mount --bind /work /host"] ∧
    ((NewVM demoProfile).1.MountDirectory (simEnv noVirtiofs) demoHandle emptyWorld
      "/work").2 = none :=
  have h := MountDirectory_falls_back_to_bind_mount (simEnv noVirtiofs) (NewVM demoProfile).1
    demoHandle emptyWorld "/work" "/work" rfl (by decide)
  ⟨rfl, by rw [h.1]; decide, by decide⟩

/-- C8: after the detection (with `eth0` when it fails), `Setup` issues the
listed commands in order up to the first fatal one that fails and none after
it, leaves the state those commands produce, and returns nil if and only if
every fatal command succeeds. -/
theorem Setup_runs_fixed_command_sequence (env : Env σ) (m : Manager) (w : World σ) :
    let d := detectHostInterface env w
    let script := setupScript m.TAPDevice m.TAPIP (hostInterfaceOf d.2)
    let errs := commandErrors env d.1.state (script.map Prod.fst)
    let n := stepsRun ((script.map Prod.snd).zip errs)
    let r := Setup env m w
    r.2.1 = { m with HostInterface := hostInterfaceOf d.2 } ∧
    r.1.log = d.1.log ++ (script.take n).map (fun step => Event.command step.1) ∧
    r.1.state = stateAfter env d.1.state ((script.take n).map Prod.fst) ∧
    (r.2.2 = none ↔ ∀ p ∈ (script.map Prod.snd).zip errs, p.1 = true → p.2 = none) :=
  Setup_spec env m w

/-- C9: on the host model, with queries that leave the host unchanged, a
detection that names the same interface both times and no masquerade rule for
it at the start, two calls of `Setup` in a row both return nil and leave
exactly one masquerade rule for that interface and exactly one TAP link of the
configured name. -/
theorem Setup_twice_leaves_one_rule_one_link (env : Env Host) (m : Manager) (w : World Host)
    (hrun : env.run = hostRun) (hquery : ∀ h argv, (env.output h argv).1 = h) :
    let first := Setup env m w
    let second := Setup env first.2.1 first.1
    second.2.1.HostInterface = first.2.1.HostInterface →
    masquerade first.2.1.HostInterface ∉ w.state.rules →
    first.2.2 = none ∧ second.2.2 = none ∧
    second.1.state.rules.count (masquerade first.2.1.HostInterface) = 1 ∧
    second.1.state.links.count m.TAPDevice = 1 := by
  intro first second hsame hfresh
  have h1 := Setup_on_host env hrun hquery m w
  have h2 := Setup_on_host env hrun hquery first.2.1 first.1
  have hm1 := Setup_manager env m w
  have hm2 := Setup_manager env first.2.1 first.1
  have hi2 : hostInterfaceOf (detectHostInterface env first.1).2 = first.2.1.HostInterface := by
    have := congrArg Manager.HostInterface hm2
    exact this.symm.trans hsame
  have hi1 : hostInterfaceOf (detectHostInterface env w).2 = first.2.1.HostInterface := by
    have := congrArg Manager.HostInterface hm1
    exact this.symm
  have ht : first.2.1.TAPDevice = m.TAPDevice := by
    show (Setup env m w).2.1.TAPDevice = m.TAPDevice
    rw [hm1]
  rw [hi2, ht] at h2
  rw [hi1] at h1
  generalize first.2.1.HostInterface = iface at *
  refine ⟨h1.1, h2.1, ?_, ?_⟩
  · show List.count (masquerade iface) (Setup env first.2.1 first.1).1.state.rules = 1
    rw [h2.2]
    show List.count (masquerade iface)
      ((Setup env m w).1.state.rules.erase (masquerade iface) ++ [masquerade iface]) = 1
    rw [h1.2]
    simp only [List.erase_of_not_mem hfresh]
    rw [List.erase_append_right _ hfresh]
    simp [List.count_eq_zero_of_not_mem hfresh]
  · show List.count m.TAPDevice (Setup env first.2.1 first.1).1.state.links = 1
    rw [h2.2]
    simp only [List.count_append, List.count_singleton_self]
    rw [List.count_eq_zero_of_not_mem]
    intro hmem
    simp at hmem

/-- C9, on a host with a stale TAP link: both calls return nil, one rule and
one link remain. -/
theorem Setup_twice_leaves_one_rule_one_link_witness :
    (simEnv happyScenario).run = hostRun ∧
    (∀ h argv, ((simEnv happyScenario).output h argv).1 = h) ∧
    masquerade "wlan0" ∉ staleWorld.state.rules ∧
    (Setup (simEnv happyScenario)
      (Setup (simEnv happyScenario) (NewManager "tap0" "172.16.0.1" "172.16.0.1")
        staleWorld).2.1
      (Setup (simEnv happyScenario) (NewManager "tap0" "172.16.0.1" "172.16.0.1")
        staleWorld).1).2.2 = none ∧
    (Setup (simEnv happyScenario)
      (Setup (simEnv happyScenario) (NewManager "tap0" "172.16.0.1" "172.16.0.1")
        staleWorld).2.1
      (Setup (simEnv happyScenario) (NewManager "tap0" "172.16.0.1" "172.16.0.1")
        staleWorld).1).1.state.rules.count (masquerade "wlan0") = 1 :=
  have hquery : ∀ h argv, ((simEnv happyScenario).output h argv).1 = h := by
    intro h argv
    simp only [simEnv]
    split
    · rfl
    · split <;> rfl
  have h := Setup_twice_leaves_one_rule_one_link (simEnv happyScenario)
    (NewManager "tap0" "172.16.0.1" "172.16.0.1") staleWorld rfl hquery (by decide)
    (by decide)
  ⟨rfl, hquery, by decide, h.2.1, h.2.2.1⟩

/-- C10 (what the code does): a request acknowledged with 204 No Content makes
the call return an error, and `Start` aborts at the boot source. -/
theorem request_rejects_204 :
    (Client.request (simEnv acknowledgedWithNoContent)
      { socketPath := "/tmp/firecracker.socket" } emptyWorld "PUT" "/actions"
      [("action_type", JVal.str "InstanceStart")]).2 =
      some "API request failed with status: 204" ∧
    ((NewVM demoProfile).1.Start (simEnv acknowledgedWithNoContent) emptyWorld).2.2 =
      some "failed to set boot source: API request failed with status: 204" := by
  decide

/-! ## Lemmas for the later claims -/

/-- The call `Start` leaves the profile of the VM as it was. -/
theorem Start_profile (env : Env σ) (v : VM) (w : World σ) :
    (v.Start env w).2.1.profile = v.profile := by
  simp only [VM.Start]
  split
  · rfl
  · split
    · rfl
    · split
      · rfl
      · split
        · rfl
        · split
          · rfl
          · split <;> rfl

/-- The loop of `joinErrors` only appends to what it was given. -/
theorem joinErrorsFrom_extends (i : Nat) (result : String) (errors : List String) :
    ∃ after, joinErrorsFrom i result errors = result ++ after := by
  induction errors generalizing i result with
  | nil => exact ⟨"", by simp [joinErrorsFrom]⟩
  | cons err rest ih =>
    obtain ⟨after, h⟩ := ih (i + 1) ((if i > 0 then result ++ "\n" else result) ++ ("  • " ++ err))
    simp only [joinErrorsFrom, h]
    by_cases hi : i > 0
    · exact ⟨"\n" ++ ("  • " ++ err) ++ after, by simp [hi, String.append_assoc]⟩
    · exact ⟨("  • " ++ err) ++ after, by simp [hi, String.append_assoc]⟩

/-- Every message given to the loop of `joinErrors` occurs in its result. -/
theorem joinErrorsFrom_mem (i : Nat) (result : String) (errors : List String) (msg : String)
    (hmem : msg ∈ errors) :
    ∃ before after, joinErrorsFrom i result errors = before ++ msg ++ after := by
  induction errors generalizing i result with
  | nil => cases hmem
  | cons err rest ih =>
    rcases List.mem_cons.1 hmem with rfl | hrest
    · obtain ⟨after, h⟩ := joinErrorsFrom_extends (i + 1)
        ((if i > 0 then result ++ "\n" else result) ++ ("  • " ++ msg)) rest
      refine ⟨(if i > 0 then result ++ "\n" else result) ++ "  • ", after, ?_⟩
      simp only [joinErrorsFrom, h, String.append_assoc]
    · exact ih (i + 1) _ hrest

/-- The messages collected by `validateConfig`: none exactly when every
profile has positive sizes. -/
theorem profileErrors_eq_nil (profiles : List (String × Profile)) :
    profileErrors profiles = [] ↔
      ∀ entry ∈ profiles, 0 < entry.2.VM.VCPUs ∧ 0 < entry.2.VM.MemoryMiB := by
  unfold profileErrors
  rw [List.filterMap_eq_nil_iff]
  constructor
  · intro h entry hentry
    have := h entry hentry
    unfold validateProfile at this
    split at this
    · cases this
    · split at this
      · cases this
      · constructor <;> omega
  · intro h entry hentry
    obtain ⟨h1, h2⟩ := h entry hentry
    unfold validateProfile
    rw [if_neg (by omega), if_neg (by omega)]

/-- The environment overrides leave the profiles as they were read. -/
theorem applyEnvOverrides_Profiles (env : Env σ) (cfg : Config) :
    (applyEnvOverrides env cfg).Profiles = cfg.Profiles := by
  unfold applyEnvOverrides
  simp only
  split <;> split <;> rfl

/-- What `validateConfig` returns on a configuration that was loaded. -/
theorem validateConfig_loaded (env : Env σ) (file : Except String Config) (cfg : Config)
    (hload : Load env file = Except.ok cfg) :
    validateConfig env file =
      if cfg.Profiles = [] then some "no profiles defined in configuration"
      else if profileErrors cfg.Profiles = [] then none
      else some ("validation failed:\n" ++ joinErrors (profileErrors cfg.Profiles)) := by
  simp only [validateConfig, hload, List.length_eq_zero]
  by_cases h : cfg.Profiles = []
  · simp [h]
  · simp only [h, if_false]
    by_cases h2 : profileErrors cfg.Profiles = []
    · simp [h2]
    · have : (profileErrors cfg.Profiles).length > 0 := List.length_pos.2 h2
      simp [h2, this]

/-- A profile that fails validation has its message in the result of `validateConfig`. -/
theorem validateConfig_names (env : Env σ) (file : Except String Config) (cfg : Config)
    (hload : Load env file = Except.ok cfg) (name : String) (profile : Profile) (msg : String)
    (hmem : (name, profile) ∈ cfg.Profiles) (hmsg : validateProfile name profile = some msg) :
    ∃ before after, validateConfig env file = some (before ++ msg ++ after) := by
  have herr : msg ∈ profileErrors cfg.Profiles := by
    unfold profileErrors
    rw [List.mem_filterMap]
    exact ⟨(name, profile), hmem, hmsg⟩
  have hne : cfg.Profiles ≠ [] := List.ne_nil_of_mem hmem
  have hne2 : profileErrors cfg.Profiles ≠ [] := List.ne_nil_of_mem herr
  obtain ⟨before, after, h⟩ := joinErrorsFrom_mem 0 "" (profileErrors cfg.Profiles) msg herr
  refine ⟨"validation failed:\n" ++ before, after, ?_⟩
  rw [validateConfig_loaded env file cfg hload, if_neg hne, if_neg hne2]
  unfold joinErrors
  rw [h]
  simp only [String.append_assoc]

/-- The loop over remote commands only appends to the log. -/
theorem executeEach_log (env : Env σ) (c : SSHClient) (w : World σ) (cmds : List String) :
    ∃ rest, (executeEach env c w cmds).log = w.log ++ rest := by
  induction cmds generalizing w with
  | nil => exact ⟨[], by simp [executeEach]⟩
  | cons cmd cmds ih =>
    obtain ⟨rest, h⟩ := ih (c.ExecuteCommand env w cmd).1
    refine ⟨Event.remote c.client cmd :: rest, ?_⟩
    simp only [executeEach]
    rw [h]
    simp [SSHClient.ExecuteCommand]

/-- The call `MountDirectory` only appends to the log. -/
theorem MountDirectory_log (env : Env σ) (v : VM) (c : SSHClient) (w : World σ)
    (hostPath : String) :
    ∃ rest, (v.MountDirectory env c w hostPath).1.log = w.log ++ rest := by
  simp only [VM.MountDirectory, SSHClient.ExecuteCommand]
  split
  · exact ⟨[], by simp⟩
  · split
    · exact ⟨_, rfl⟩
    · split
      · exact ⟨_, List.append_assoc _ _ _⟩
      · split
        · exact ⟨_, (List.append_assoc _ _ _).trans (List.append_assoc _ _ _)⟩
        · exact ⟨_, (List.append_assoc _ _ _).trans (List.append_assoc _ _ _)⟩

/-- The session of `runProfile` only appends to the log. -/
theorem runSession_log (env : Env σ) (v : VM) (profile : Profile) (w : World σ) :
    ∃ rest, (runSession env v profile w).1.log = w.log ++ rest := by
  simp only [runSession, VM.GetSSHClient, configureGuestNetworking, runToolCommands,
    SSHClient.Shell]
  generalize hc : ({ client := _ } : SSHClient) = c
  obtain ⟨r0, h0⟩ := executeEach_log env c w
    ["echo 'nameserver " ++
        (match profile.Network with
        | some network => if network.DNSServer ≠ "" then network.DNSServer else "1.1.1.1"
        | none => "1.1.1.1") ++ "' > /etc/resolv.conf",
      "ip route add default via 172.16.0.1 dev eth0 2>/dev/null || true"]
  generalize executeEach env c w _ = w0 at h0 ⊢
  have h1 : ∃ r1, (if profile.Tools.length = 0 then (w0, (none : Error))
      else (executeEach env c w0 profile.Tools, none)).1.log = w0.log ++ r1 := by
    split
    · exact ⟨[], by simp⟩
    · exact executeEach_log env c w0 profile.Tools
  obtain ⟨r1, h1⟩ := h1
  generalize (if profile.Tools.length = 0 then (w0, (none : Error))
      else (executeEach env c w0 profile.Tools, none)).1 = w1 at h1 ⊢
  have h2 : ∃ r2, (match env.getwd with
      | Except.error _ => w1
      | Except.ok cwd => (v.MountDirectory env c w1 cwd).1).log = w1.log ++ r2 := by
    split
    · exact ⟨[], by simp⟩
    · exact MountDirectory_log env v c w1 _
  obtain ⟨r2, h2⟩ := h2
  refine ⟨r0 ++ r1 ++ r2 ++ [Event.shell c.client], ?_⟩
  simp only [h2, h1, h0, List.append_assoc]
  rw [← hc]

/-- The call `Stop` only appends to the log. -/
theorem Stop_log (env : Env σ) (v : VM) (w : World σ) :
    ∃ rest, (v.Stop env w).1.log = w.log ++ rest := by
  unfold VM.Stop
  split
  · exact ⟨_, (Teardown_spec env _ w).2.1⟩
  · exact ⟨[], by simp⟩

/-- The run command starts the VM of every profile it finds: the log of
`runProfile` begins with the log of `Start` on that profile. -/
theorem runProfile_starts (env : Env σ) (file : Except String Config) (cfg : Config)
    (name : String) (profile : Profile) (w : World σ)
    (hload : Load env file = Except.ok cfg)
    (hfound : cfg.Profiles.lookup name = some profile) :
    ∃ rest, (runProfile env file name w).1.log =
      ((NewVM profile).1.Start env w).1.log ++ rest := by
  simp only [runProfile, hload, hfound, NewVM]
  generalize VM.Start env _ w = s
  split
  · exact ⟨[], by simp⟩
  · obtain ⟨r1, h1⟩ := runSession_log env s.2.1 profile s.1
    obtain ⟨r2, h2⟩ := Stop_log env s.2.1 (runSession env s.2.1 profile s.1).1
    exact ⟨r1 ++ r2, by simp only [h2, h1, List.append_assoc]⟩

/-! ## Lemmas on the path functions -/

/-- Cutting always yields at least one piece. -/
theorem splitAt_ne_nil (p : Char → Bool) (l : List Char) : splitAt p l ≠ [] := by
  cases l with
  | nil => simp [splitAt]
  | cons c cs =>
    unfold splitAt
    split
    · simp
    · split <;> simp

/-- Cutting a list whose first character is no separator: that character
joins the first piece of the rest. -/
theorem splitAt_cons_of_not (p : Char → Bool) (x : Char) (l : List Char) (hx : ¬p x = true) :
    splitAt p (x :: l) =
      match splitAt p l with
      | [] => [[x]]
      | piece :: pieces => (x :: piece) :: pieces := by
  rw [splitAt, if_neg hx]

/-- Cutting a list that has a separator in the middle: the pieces before it,
then the pieces after it. -/
theorem splitAt_append_sep (p : Char → Bool) (a b : List Char) (c : Char) (hc : p c = true) :
    splitAt p (a ++ c :: b) = splitAt p a ++ splitAt p b := by
  induction a with
  | nil => simp [splitAt, hc]
  | cons x a ih =>
    by_cases hx : p x = true
    · simp [splitAt, hx, ih]
    · have hne := splitAt_ne_nil p a
      rw [List.cons_append, splitAt_cons_of_not p x _ hx, splitAt_cons_of_not p x _ hx, ih]
      cases hsa : splitAt p a with
      | nil => exact absurd hsa hne
      | cons piece pieces => simp

/-- The characters of a piece are characters of the list that was cut. -/
theorem mem_of_mem_splitAt (p : Char → Bool) (l piece : List Char) (x : Char)
    (hpiece : piece ∈ splitAt p l) (hx : x ∈ piece) : x ∈ l := by
  induction l generalizing piece with
  | nil =>
    simp only [splitAt, List.mem_singleton] at hpiece
    subst hpiece
    cases hx
  | cons c cs ih =>
    unfold splitAt at hpiece
    split at hpiece
    · rcases List.mem_cons.1 hpiece with rfl | h
      · cases hx
      · exact List.mem_cons_of_mem _ (ih piece h hx)
    · split at hpiece
      · simp only [List.mem_singleton] at hpiece
        subst hpiece
        simp only [List.mem_singleton] at hx
        subst hx
        exact List.mem_cons_self _ _
      · rename_i first pieces hs
        rcases List.mem_cons.1 hpiece with rfl | h
        · rcases List.mem_cons.1 hx with rfl | hx'
          · exact List.mem_cons_self _ _
          · exact List.mem_cons_of_mem _ (ih first (by rw [hs]; exact List.mem_cons_self _ _) hx')
        · exact List.mem_cons_of_mem _ (ih piece (by rw [hs]; exact List.mem_cons_of_mem _ h) hx)

/-- A step of `Clean` keeps components of the stack or the component read. -/
theorem mem_cleanStep (rooted : Bool) (stack : List (List Char)) (comp kept : List Char)
    (h : kept ∈ cleanStep rooted stack comp) : kept ∈ stack ∨ kept = comp := by
  unfold cleanStep at h
  split at h
  · exact Or.inl h
  · split at h
    · split at h
      · split at h
        · rcases List.mem_cons.1 h with rfl | h'
          · exact Or.inr rfl
          · exact Or.inl h'
        · exact Or.inl (List.mem_cons_of_mem _ h)
      · split at h
        · cases h
        · simp only [List.mem_singleton] at h
          exact Or.inr h
    · rcases List.mem_cons.1 h with rfl | h'
      · exact Or.inr rfl
      · exact Or.inl h'

/-- The loop of `Clean` keeps components of the stack or components read. -/
theorem mem_foldl_cleanStep (rooted : Bool) (comps stack : List (List Char)) (kept : List Char)
    (h : kept ∈ comps.foldl (cleanStep rooted) stack) : kept ∈ stack ∨ kept ∈ comps := by
  induction comps generalizing stack with
  | nil => exact Or.inl h
  | cons comp comps ih =>
    rcases ih (cleanStep rooted stack comp) h with h1 | h1
    · rcases mem_cleanStep rooted stack comp kept h1 with h2 | rfl
      · exact Or.inl h2
      · exact Or.inr (List.mem_cons_self _ _)
    · exact Or.inr (List.mem_cons_of_mem _ h1)

/-- The characters of joined components: separators and characters of components. -/
theorem mem_joinComponents (comps : List (List Char)) (x : Char)
    (h : x ∈ joinComponents comps) : x = '/' ∨ ∃ comp ∈ comps, x ∈ comp := by
  induction comps with
  | nil => cases h
  | cons comp rest ih =>
    cases rest with
    | nil => exact Or.inr ⟨comp, List.mem_cons_self _ _, h⟩
    | cons next rest =>
      simp only [joinComponents, List.mem_append, List.mem_cons] at h
      rcases h with h | rfl | h
      · exact Or.inr ⟨comp, List.mem_cons_self _ _, h⟩
      · exact Or.inl rfl
      · rcases ih h with h' | ⟨c, hc, hx⟩
        · exact Or.inl h'
        · exact Or.inr ⟨c, List.mem_cons_of_mem _ hc, hx⟩

/-- The characters of a cleaned path: separators, dots and characters of the path. -/
theorem mem_Clean (path : String) (x : Char) (h : x ∈ (Clean path).data) :
    x = '/' ∨ x = '.' ∨ x ∈ path.data := by
  have hcomps : ∀ rooted : Bool, x ∈ joinComponents
      ((splitAt (fun c => c = '/') path.data).foldl (cleanStep rooted) []).reverse →
      x = '/' ∨ x = '.' ∨ x ∈ path.data := by
    intro rooted hx
    rcases mem_joinComponents _ x hx with h1 | ⟨comp, hcomp, hxc⟩
    · exact Or.inl h1
    · rcases mem_foldl_cleanStep rooted _ [] comp (List.mem_reverse.1 hcomp) with h2 | h2
      · cases h2
      · exact Or.inr (Or.inr (mem_of_mem_splitAt _ _ comp x h2 hxc))
  unfold Clean at h
  split at h
  · simp only [List.mem_singleton] at h
    exact Or.inr (Or.inl (by simpa using h))
  · simp only at h
    split at h
    · rcases List.mem_cons.1 h with rfl | h'
      · exact Or.inl rfl
      · exact hcomps _ h'
    · split at h
      · exact Or.inr (Or.inl (by simpa using h))
      · exact hcomps _ h

/-- Joining a non-empty element with a second one: the two parts with a
separator between them, cleaned. -/
theorem filepathJoin_pair (h x : String) (hne : h ≠ "") :
    filepathJoin [h, x] = Clean (h ++ "/" ++ x) := by
  simp only [filepathJoin, if_neg hne]
  rfl

/-- A separator in front of the second element makes no difference to the join. -/
theorem filepathJoin_leading_separator (h rest : String) (hne : h ≠ "") :
    filepathJoin [h, "/" ++ rest] = filepathJoin [h, rest] := by
  rw [filepathJoin_pair h _ hne, filepathJoin_pair h _ hne]
  have hdata : h.data ≠ [] := fun hd => hne (String.ext hd)
  have h1 : h ++ "/" ++ ("/" ++ rest) ≠ "" := by
    intro hh
    have := congrArg String.data hh
    simp at this
  have h2 : h ++ "/" ++ rest ≠ "" := by
    intro hh
    have := congrArg String.data hh
    simp at this
  have hsep : (fun c : Char => decide (c = '/')) '/' = true := by decide
  have hhead1 : (h ++ "/" ++ ("/" ++ rest)).data.head? = h.data.head? := by
    cases hd : h.data with
    | nil => exact absurd hd hdata
    | cons c cs => simp [hd]
  have hhead2 : (h ++ "/" ++ rest).data.head? = h.data.head? := by
    cases hd : h.data with
    | nil => exact absurd hd hdata
    | cons c cs => simp [hd]
  have hs1 : splitAt (fun c => c = '/') (h ++ "/" ++ ("/" ++ rest)).data =
      splitAt (fun c => c = '/') h.data ++ ([] :: splitAt (fun c => c = '/') rest.data) := by
    have : (h ++ "/" ++ ("/" ++ rest)).data = h.data ++ '/' :: ('/' :: rest.data) := by
      simp [String.data_append]
    rw [this, splitAt_append_sep _ _ _ _ hsep]
    simp [splitAt]
  have hs2 : splitAt (fun c => c = '/') (h ++ "/" ++ rest).data =
      splitAt (fun c => c = '/') h.data ++ splitAt (fun c => c = '/') rest.data := by
    have : (h ++ "/" ++ rest).data = h.data ++ '/' :: rest.data := by
      simp [String.data_append]
    rw [this, splitAt_append_sep _ _ _ _ hsep]
  simp only [Clean, if_neg h1, if_neg h2, hhead1, hhead2, hs1, hs2, List.foldl_append,
    List.foldl_cons]
  simp [cleanStep]

/-- A character other than the separator and the dot that is in neither part
is not in the join. -/
theorem not_mem_filepathJoin (h rest : String) (hne : h ≠ "") (x : Char)
    (hsep : x ≠ '/') (hdot : x ≠ '.') (hh : x ∉ h.data) (hrest : x ∉ rest.data) :
    x ∉ (filepathJoin [h, rest]).data := by
  rw [filepathJoin_pair h _ hne]
  intro hmem
  rcases mem_Clean _ x hmem with h1 | h1 | h1
  · exact hsep h1
  · exact hdot h1
  · simp only [String.data_append, List.mem_append] at h1
    rcases h1 with (h1 | h1) | h1
    · exact hh h1
    · have : x = '/' := by simpa using h1
      exact hsep this
    · exact hrest h1

/-- The helper `expandPath` on a path that starts with `~/`: the home
directory, when it resolves, joined with the path from the separator on. -/
theorem expandPath_home (env : Env σ) (rest : String) :
    expandPath env ("~/" ++ rest) =
      match env.userHomeDir with
      | Except.ok home => env.join [home, "/" ++ rest]
      | Except.error _ => "~/" ++ rest := by
  have hdata : ("~/" ++ rest).data = '~' :: '/' :: rest.data := by
    simp [String.data_append]
  have hsize : ("~/" ++ rest).utf8ByteSize > 1 := by
    have h1 : ("~/" ++ rest).utf8ByteSize = String.utf8Len ('~' :: '/' :: rest.data) := by
      rw [← hdata]
      rfl
    rw [h1, String.utf8Len_cons, String.utf8Len_cons]
    have h2 : Char.utf8Size '~' = 1 := by decide
    have h3 : Char.utf8Size '/' = 1 := by decide
    omega
  have hdrop : String.mk (("~/" ++ rest).data.drop 1) = "/" ++ rest := by
    apply String.ext
    simp [hdata]
  unfold expandPath
  rw [if_pos ⟨hsize, by rw [hdata]; rfl⟩, hdrop]

/-- The helper `expandPath` on a path that does not start with `~`: the path itself. -/
theorem expandPath_other (env : Env σ) (path : String) (h : path.data.head? ≠ some '~') :
    expandPath env path = path := by
  unfold expandPath
  rw [if_neg (fun hc => h hc.2)]

/-! ## Lemmas on the detection -/

set_option exponentiation.threshold 2000

/-- The inner loop of the detection finds exactly the part after the first `dev`. -/
theorem devAfter_eq_some_iff (parts : List String) (dev : String) :
    devAfter parts = some dev ↔ tokenAfterDev parts dev := by
  induction parts with
  | nil =>
    simp only [devAfter, tokenAfterDev]
    constructor
    · intro h
      cases h
    · rintro ⟨pre, post, h, _⟩
      cases pre <;> cases h
  | cons part rest ih =>
    by_cases hpart : part = "dev"
    · subst hpart
      cases rest with
      | nil =>
        simp only [devAfter, if_true, tokenAfterDev]
        constructor
        · intro h
          cases h
        · rintro ⟨pre, post, h, hpre⟩
          cases pre with
          | nil => cases h
          | cons p pre =>
            simp only [List.cons_append, List.cons.injEq] at h
            exact absurd (List.mem_cons_self _ _) (h.1 ▸ hpre)
      | cons next rest =>
        simp only [devAfter, if_true, tokenAfterDev, Option.some.injEq]
        constructor
        · rintro rfl
          exact ⟨[], rest, rfl, by simp⟩
        · rintro ⟨pre, post, h, hpre⟩
          cases pre with
          | nil =>
            simp only [List.nil_append, List.cons.injEq, true_and] at h
            exact h.1
          | cons p pre =>
            simp only [List.cons_append, List.cons.injEq] at h
            exact absurd (List.mem_cons_self _ _) (h.1 ▸ hpre)
    · simp only [devAfter, if_neg hpart, ih, tokenAfterDev]
      constructor
      · rintro ⟨pre, post, h, hpre⟩
        refine ⟨part :: pre, post, by simp [h], ?_⟩
        simp only [List.mem_cons, not_or]
        exact ⟨fun h' => hpart h'.symm, hpre⟩
      · rintro ⟨pre, post, h, hpre⟩
        cases pre with
        | nil =>
          simp only [List.nil_append, List.cons.injEq] at h
          exact absurd h.1 hpart
        | cons p pre =>
          simp only [List.cons_append, List.cons.injEq] at h
          exact ⟨pre, post, h.2, fun hmem => hpre (List.mem_cons_of_mem _ hmem)⟩

/-- The text fallback of the detection finds exactly what the text rule describes. -/
theorem parseTextRoutes_eq_some_iff (output dev : String) :
    parseTextRoutes output = some dev ↔ textRule output dev := by
  unfold parseTextRoutes textRule
  rw [List.findSome?_eq_some_iff]
  constructor
  · rintro ⟨before, line, after, hsplit, hline, hbefore⟩
    refine ⟨before, line, after, hsplit, ?_, ?_, ?_⟩
    · by_cases hc : contains line "default" = true
      · exact hc
      · simp [hc] at hline
    · by_cases hc : contains line "default" = true
      · simp only [hc, if_true] at hline
        exact (devAfter_eq_some_iff _ _).1 hline
      · simp [hc] at hline
    · intro l hl hc d hd
      have := hbefore l hl
      simp only [hc, if_true] at this
      rw [(devAfter_eq_some_iff _ _).2 hd] at this
      cases this
  · rintro ⟨before, line, after, hsplit, hc, htoken, hbefore⟩
    refine ⟨before, line, after, hsplit, ?_, ?_⟩
    · simp only [hc, if_true]
      exact (devAfter_eq_some_iff _ _).2 htoken
    · intro l hl
      by_cases hcl : contains l "default" = true
      · simp only [hcl, if_true]
        cases hd : devAfter (fields l) with
        | none => rfl
        | some d => exact absurd ((devAfter_eq_some_iff _ _).1 hd) (hbefore l hl hcl d)
      · simp [hcl]

/-- The JSON branch of the detection finds exactly what the JSON rule describes. -/
theorem parseJSONRoutes_eq_some_iff (doc : Option Json) (dev : String) :
    parseJSONRoutes doc = some dev ↔
      ∃ kvs rest, doc = some (Json.arr (Json.obj kvs :: rest)) ∧ rest.all isRoute = true ∧
        numbersFit (Json.arr (Json.obj kvs :: rest)) = true ∧
        lookupField "dev" kvs = some (Json.str dev) := by
  constructor
  · intro h
    unfold parseJSONRoutes at h
    split at h
    · rename_i items
      split at h
      · rename_i hall
        split at h
        · rename_i kvs rest
          split at h
          · rename_i d hd
            simp only [Option.some.injEq] at h
            subst h
            simp only [Bool.and_eq_true] at hall
            refine ⟨kvs, rest, rfl, ?_, hall.2, hd⟩
            simpa [isRoute] using hall.1
          · cases h
        · cases h
      · cases h
    · cases h
  · rintro ⟨kvs, rest, rfl, hrest, hfit, hdev⟩
    simp [parseJSONRoutes, isRoute, hrest, hfit, hdev]

/-- The parsing half of the detection: the JSON rule first, the text rule
when the JSON rule gives nothing, an error when neither gives a device. -/
theorem parseRoutes_spec (env : Env σ) (output : String) :
    (∀ dev, parseRoutes env output = Except.ok dev ↔
      jsonRule env output dev ∨ ((∀ d, ¬jsonRule env output d) ∧ textRule output dev)) ∧
    ((∀ dev, parseRoutes env output ≠ Except.ok dev) →
      parseRoutes env output = Except.error "could not detect default interface") := by
  have hjson : ∀ dev, (if output.data.head? = some '[' then
      parseJSONRoutes (env.decodeJSON output) else none) = some dev ↔
      jsonRule env output dev := by
    intro dev
    unfold jsonRule
    by_cases hb : output.data.head? = some '['
    · simp only [hb, if_true, true_and]
      exact parseJSONRoutes_eq_some_iff _ _
    · simp [hb]
  unfold parseRoutes
  simp only
  cases hj : (if output.data.head? = some '[' then
      parseJSONRoutes (env.decodeJSON output) else none) with
  | some d =>
    have hd := (hjson d).1 hj
    refine ⟨?_, ?_⟩
    · intro dev
      simp only [Except.ok.injEq]
      constructor
      · rintro rfl
        exact Or.inl hd
      · rintro (h | ⟨h, _⟩)
        · have := (hjson dev).2 h
          rw [hj] at this
          exact Option.some.inj this
        · exact absurd hd (h d)
    · intro h
      exact absurd rfl (h d)
  | none =>
    have hno : ∀ d, ¬jsonRule env output d := by
      intro d hd
      have := (hjson d).2 hd
      rw [hj] at this
      cases this
    cases ht : parseTextRoutes output with
    | some d =>
      refine ⟨?_, ?_⟩
      · intro dev
        simp only [Except.ok.injEq]
        constructor
        · rintro rfl
          exact Or.inr ⟨hno, (parseTextRoutes_eq_some_iff _ _).1 ht⟩
        · rintro (h | ⟨_, h⟩)
          · exact absurd h (hno dev)
          · have := (parseTextRoutes_eq_some_iff _ _).2 h
            rw [ht] at this
            exact Option.some.inj this
      · intro h
        exact absurd rfl (h d)
    | none =>
      refine ⟨?_, ?_⟩
      · intro dev
        constructor
        · intro h
          cases h
        · rintro (h | ⟨_, h⟩)
          · exact absurd h (hno dev)
          · have := (parseTextRoutes_eq_some_iff _ _).2 h
            rw [ht] at this
            cases this
      · intro _
        rfl

/-- A number beyond the float64 range makes the JSON branch give nothing: the
detection then reads the same output with the text rule, finds no token, and
returns an error, although the first route has a string `dev`. -/
theorem detectHostInterface_rejects_number_out_of_range :
    fitsFloat64 "1e999" = false ∧ fitsFloat64 "600" = true ∧
    fitsFloat64 "1.7976931348623158e308" = true ∧
    fitsFloat64 "1.7976931348623159e308" = false ∧
    (detectHostInterface (simEnv hugeMetric) emptyWorld).2 =
      Except.error "could not detect default interface" :=
  ⟨by decide, by decide, by decide, by decide, rfl⟩

/-! ## The later claims -/

/-- C11: the effective network configuration is the override of the profile
when there is one and the fixed default otherwise; it depends on the profile
only; and `Start` builds its manager, and `GetSSHClient` (also after `Start`)
its handle, from that same configuration. -/
theorem getEffectiveNetworkConfig_override_or_default (env : Env σ) (v other : VM)
    (w : World σ) :
    (∀ network, v.profile.Network = some network → v.getEffectiveNetworkConfig = network) ∧
    (v.profile.Network = none →
      v.getEffectiveNetworkConfig =
        { TAPDevice := "tap0", TAPIP := "172.16.0.1", GuestIP := "172.16.0.2",
          GatewayIP := "172.16.0.1", HostInterface := "", DNSServer := "1.1.1.1" }) ∧
    (other.profile = v.profile →
      other.getEffectiveNetworkConfig = v.getEffectiveNetworkConfig) ∧
    (v.Start env w).2.1.netManager =
      some { TAPDevice := v.getEffectiveNetworkConfig.TAPDevice,
             TAPIP := v.getEffectiveNetworkConfig.TAPIP,
             GatewayIP := v.getEffectiveNetworkConfig.GatewayIP,
             HostInterface := hostInterfaceOf (detectHostInterface env w).2 } ∧
    (v.GetSSHClient env).1.client.host = v.getEffectiveNetworkConfig.GuestIP ∧
    ((v.Start env w).2.1.GetSSHClient env).1.client.host =
      v.getEffectiveNetworkConfig.GuestIP := by
  refine ⟨?_, ?_, ?_, Start_netManager env v w, rfl, ?_⟩
  · intro network h
    simp only [VM.getEffectiveNetworkConfig, h]
  · intro h
    simp only [VM.getEffectiveNetworkConfig, h]
  · intro h
    simp only [VM.getEffectiveNetworkConfig, h]
  · simp only [VM.GetSSHClient, VM.getEffectiveNetworkConfig, Start_profile]

/-- C11, at a profile with a network override: the override is resolved, by
`Start` (TAP device of the manager) and by `GetSSHClient` (guest address). -/
theorem getEffectiveNetworkConfig_override_or_default_witness :
    (NewVM overrideProfile).1.getEffectiveNetworkConfig =
      { TAPDevice := "tap7", TAPIP := "10.0.0.1", GuestIP := "10.0.0.2",
        GatewayIP := "10.0.0.1", HostInterface := "", DNSServer := "9.9.9.9" } ∧
    (NewVM demoProfile).1.getEffectiveNetworkConfig =
      { TAPDevice := "tap0", TAPIP := "172.16.0.1", GuestIP := "172.16.0.2",
        GatewayIP := "172.16.0.1", HostInterface := "", DNSServer := "1.1.1.1" } :=
  ⟨(getEffectiveNetworkConfig_override_or_default (simEnv happyScenario)
      (NewVM overrideProfile).1 (NewVM overrideProfile).1 emptyWorld).1 _ rfl,
   (getEffectiveNetworkConfig_override_or_default (simEnv happyScenario)
      (NewVM demoProfile).1 (NewVM demoProfile).1 emptyWorld).2.1 rfl⟩

/-- C12 (as stated, refuted): for a profile with zero vCPUs and negative
memory, which validation rejects, `runProfile` returns nil after issuing the
host network commands of `Setup` and the five control calls of `Start`. -/
theorem runProfile_starts_unsized_profile :
    validateProfile "bad" unsizedProfile ≠ none ∧
    (runProfile (simEnv happyScenario) (Except.ok unsizedConfig) "bad" emptyWorld).2 = none ∧
    requestsOf (runProfile (simEnv happyScenario) (Except.ok unsizedConfig) "bad"
        emptyWorld).1.log =
      startRequests "k" "console=ttyS0 reboot=k panic=1" "r" "06:00:AC:10:00:02" "tap0" ∧
    (commandsOf (runProfile (simEnv happyScenario) (Except.ok unsizedConfig) "bad"
        emptyWorld).1.log).take 8 =
      (setupScript "tap0" "172.16.0.1" "wlan0").map Prod.fst := by
  decide

/-- C12 (amended): configuration validation rejects every profile with a
non-positive vCPU count or memory size, `validateProfile` on the profile and
`validateConfig` on every loaded configuration that holds it; the run command
applies no such check, it starts the VM of every profile it finds. -/
theorem validation_rejects_nonpositive_sizes (env : Env σ) (name : String)
    (profile : Profile) (hbad : profile.VM.VCPUs ≤ 0 ∨ profile.VM.MemoryMiB ≤ 0) :
    validateProfile name profile ≠ none ∧
    (∀ file cfg, Load env file = Except.ok cfg → (name, profile) ∈ cfg.Profiles →
      validateConfig env file ≠ none) ∧
    (∀ file cfg w, Load env file = Except.ok cfg →
      cfg.Profiles.lookup name = some profile →
      ∃ rest, (runProfile env file name w).1.log =
        ((NewVM profile).1.Start env w).1.log ++ rest) := by
  have hprofile : validateProfile name profile ≠ none := by
    unfold validateProfile
    split
    · simp
    · split
      · simp
      · omega
  refine ⟨hprofile, ?_, ?_⟩
  · intro file cfg hload hmem
    obtain ⟨msg, hmsg⟩ := Option.ne_none_iff_exists'.1 hprofile
    obtain ⟨before, after, h⟩ := validateConfig_names env file cfg hload name profile msg hmem hmsg
    rw [h]
    simp
  · intro file cfg w hload hfound
    exact runProfile_starts env file cfg name profile w hload hfound

/-- C12 (amended), at the unsized profile: both validations reject it. -/
theorem validation_rejects_nonpositive_sizes_witness :
    unsizedProfile.VM.VCPUs ≤ 0 ∧
    validateProfile "bad" unsizedProfile ≠ none ∧
    validateConfig (simEnv happyScenario) (Except.ok unsizedConfig) ≠ none :=
  have h := validation_rejects_nonpositive_sizes (simEnv happyScenario) "bad" unsizedProfile
    (Or.inl (by decide))
  ⟨by decide, h.1, h.2.1 (Except.ok unsizedConfig) unsizedConfig rfl (by decide)⟩

/-- C13: on a loaded configuration `validateConfig` returns nil exactly when
there is a profile and every profile has positive vCPUs and memory; without
profiles the error is `no profiles defined in configuration`; and the error
holds, for each profile without vCPUs, a message naming the profile and
`VCPUs`, and for each profile with vCPUs but without memory, one naming the
profile and `MemoryMiB`. -/
theorem validateConfig_accepts_iff_all_positive (env : Env σ) (file : Except String Config)
    (cfg : Config) (hload : Load env file = Except.ok cfg) :
    (validateConfig env file = none ↔
      cfg.Profiles ≠ [] ∧
      ∀ entry ∈ cfg.Profiles, 0 < entry.2.VM.VCPUs ∧ 0 < entry.2.VM.MemoryMiB) ∧
    (cfg.Profiles = [] →
      validateConfig env file = some "no profiles defined in configuration") ∧
    (∀ name profile, (name, profile) ∈ cfg.Profiles → profile.VM.VCPUs ≤ 0 →
      ∃ before after, validateConfig env file =
        some (before ++ ("profile '" ++ name ++ "': VCPUs must be greater than 0") ++ after)) ∧
    (∀ name profile, (name, profile) ∈ cfg.Profiles → 0 < profile.VM.VCPUs →
      profile.VM.MemoryMiB ≤ 0 →
      ∃ before after, validateConfig env file =
        some (before ++ ("profile '" ++ name ++ "': MemoryMiB must be greater than 0") ++
          after)) := by
  have hv := validateConfig_loaded env file cfg hload
  refine ⟨?_, ?_, ?_, ?_⟩
  · rw [hv, ← profileErrors_eq_nil]
    by_cases h1 : cfg.Profiles = []
    · simp [h1]
    · by_cases h2 : profileErrors cfg.Profiles = []
      · simp [h1, h2]
      · simp [h1, h2]
  · intro h
    rw [hv, if_pos h]
  · intro name profile hmem hcpu
    apply validateConfig_names env file cfg hload name profile _ hmem
    unfold validateProfile
    rw [if_pos hcpu]
  · intro name profile hmem hcpu hmemory
    apply validateConfig_names env file cfg hload name profile _ hmem
    unfold validateProfile
    rw [if_neg (by omega), if_pos hmemory]

/-- C13, at a configuration with one valid and two invalid profiles. -/
theorem validateConfig_accepts_iff_all_positive_witness :
    Load (simEnv happyScenario) (Except.ok mixedConfig) = Except.ok mixedConfig ∧
    validateConfig (simEnv happyScenario) (Except.ok mixedConfig) ≠ none ∧
    ∃ before after, validateConfig (simEnv happyScenario) (Except.ok mixedConfig) =
      some (before ++ ("profile '" ++ "bad" ++ "': VCPUs must be greater than 0") ++ after) :=
  have h := validateConfig_accepts_iff_all_positive (simEnv happyScenario)
    (Except.ok mixedConfig) mixedConfig rfl
  ⟨rfl, fun hnone => absurd ((h.1.1 hnone).2 ("bad", unsizedProfile) (by decide)).1 (by decide),
   h.2.2.1 "bad" unsizedProfile (by decide) (by decide)⟩

/-- C14 (as stated, refuted): a kernel path with the home shorthand and a
later `~` is sent as the home directory joined with the remainder, and that
path still has a `~` in it. -/
theorem SetBootSource_keeps_later_tilde :
    (Client.SetBootSource (unixEnv happyScenario) { socketPath := "/tmp/firecracker.socket" }
      emptyWorld "~/kernels/vmlinux~1" "quiet").1.log =
      [Event.request "/tmp/firecracker.socket"
        { method := "PUT", endpoint := "/boot-source",
          body := [("kernel_image_path", JVal.str "/home/user/kernels/vmlinux~1"),
                   ("boot_args", JVal.str "quiet")] }] ∧
    '~' ∈ "/home/user/kernels/vmlinux~1".data := by
  decide

/-- C14 (amended): with a non-empty home directory `h` and `filepath.Join` as
the join, a kernel-image or rootfs path `~/rest` is sent by `SetBootSource` and
`AttachRootfs` as `h` joined with `rest`, which has no `~` in it when neither
`h` nor `rest` has one; and a path that does not begin with `~` is sent as it is. -/
theorem expandPath_expands_leading_home_shorthand (env : Env σ) (c : Client) (w : World σ)
    (h rest path bootArgs driveID : String) (isRoot isReadOnly : Bool)
    (hjoin : env.join = filepathJoin) (hhome : env.userHomeDir = Except.ok h)
    (hne : h ≠ "") :
    (c.SetBootSource env w ("~/" ++ rest) bootArgs).1.log = w.log ++
      [Event.request c.socketPath
        { method := "PUT", endpoint := "/boot-source",
          body := [("kernel_image_path", JVal.str (filepathJoin [h, rest])),
                   ("boot_args", JVal.str bootArgs)] }] ∧
    (c.AttachRootfs env w driveID ("~/" ++ rest) isRoot isReadOnly).1.log = w.log ++
      [Event.request c.socketPath
        { method := "PUT", endpoint := "/drives/" ++ driveID,
          body := [("drive_id", JVal.str driveID),
                   ("path_on_host", JVal.str (filepathJoin [h, rest])),
                   ("is_root_device", JVal.bool isRoot),
                   ("is_read_only", JVal.bool isReadOnly)] }] ∧
    ('~' ∉ h.data → '~' ∉ rest.data → '~' ∉ (filepathJoin [h, rest]).data) ∧
    (path.data.head? ≠ some '~' →
      (c.SetBootSource env w path bootArgs).1.log = w.log ++
        [Event.request c.socketPath
          { method := "PUT", endpoint := "/boot-source",
            body := [("kernel_image_path", JVal.str path),
                     ("boot_args", JVal.str bootArgs)] }] ∧
      (c.AttachRootfs env w driveID path isRoot isReadOnly).1.log = w.log ++
        [Event.request c.socketPath
          { method := "PUT", endpoint := "/drives/" ++ driveID,
            body := [("drive_id", JVal.str driveID), ("path_on_host", JVal.str path),
                     ("is_root_device", JVal.bool isRoot),
                     ("is_read_only", JVal.bool isReadOnly)] }]) := by
  have hexp : expandPath env ("~/" ++ rest) = filepathJoin [h, rest] := by
    rw [expandPath_home, hhome, hjoin]
    exact filepathJoin_leading_separator h rest hne
  refine ⟨?_, ?_, ?_, ?_⟩
  · rw [Client.SetBootSource, request_log, hexp]
  · rw [Client.AttachRootfs, request_log, hexp]
  · intro hh hrest
    exact not_mem_filepathJoin h rest hne '~' (by decide) (by decide) hh hrest
  · intro hpath
    rw [Client.SetBootSource, request_log, Client.AttachRootfs, request_log,
      expandPath_other env path hpath]
    exact ⟨rfl, rfl⟩

/-- C14 (amended), at the home directory `/home/user`: the image under the home
directory is sent with its full path, without `~`. -/
theorem expandPath_expands_leading_home_shorthand_witness :
    (unixEnv happyScenario).join = filepathJoin ∧
    (unixEnv happyScenario).userHomeDir = Except.ok "/home/user" ∧
    (Client.SetBootSource (unixEnv happyScenario) { socketPath := "/tmp/firecracker.socket" }
      emptyWorld ("~/" ++ "images/vmlinux.bin") "quiet").1.log =
      emptyWorld.log ++ [Event.request "/tmp/firecracker.socket"
        { method := "PUT", endpoint := "/boot-source",
          body := [("kernel_image_path",
                     JVal.str (filepathJoin ["/home/user", "images/vmlinux.bin"])),
                   ("boot_args", JVal.str "quiet")] }] ∧
    filepathJoin ["/home/user", "images/vmlinux.bin"] = "/home/user/images/vmlinux.bin" ∧
    '~' ∉ (filepathJoin ["/home/user", "images/vmlinux.bin"]).data :=
  have h := expandPath_expands_leading_home_shorthand (unixEnv happyScenario)
    { socketPath := "/tmp/firecracker.socket" } emptyWorld "/home/user" "images/vmlinux.bin"
    "/boot/vmlinux" "quiet" "rootfs" true false rfl rfl (by decide)
  ⟨rfl, rfl, h.1, by decide, h.2.2.1 (by decide) (by decide)⟩

/-- C15 (what the code does): for a profile whose network override sets the
gateway to 10.0.0.1, the guest is given the name server of the override but the
default route via 172.16.0.1. -/
theorem configureGuestNetworking_routes_via_fixed_gateway :
    (NewVM overrideProfile).1.getEffectiveNetworkConfig.GatewayIP = "10.0.0.1" ∧
    (configureGuestNetworking (simEnv happyScenario)
      ((NewVM overrideProfile).1.GetSSHClient (simEnv happyScenario)).1 overrideProfile
      emptyWorld).1.log =
      [Event.remote
         { host := "10.0.0.2", port := 22, username := "root",
           privateKey := "/home/user/.config/sear/sear_key" }
         "echo 'nameserver 9.9.9.9' > /etc/resolv.conf",
       Event.remote
         { host := "10.0.0.2", port := 22, username := "root",
           privateKey := "/home/user/.config/sear/sear_key" }
         "ip route add default via 172.16.0.1 dev eth0 2>/dev/null || true"] := by
  decide

/-- C16 (what the code does): with the key path overridden in the environment,
the override reaches the loaded configuration, but the handle of `GetSSHClient`
still carries the key file under the home directory. -/
theorem GetSSHClient_ignores_key_override :
    (unixEnv keyOverridden).getenv "SEAR_SSH_KEY" = "/keys/id_ed25519" ∧
    (applyEnvOverrides (unixEnv keyOverridden) demoConfig).SSH =
      some { KeyPath := "/keys/id_ed25519", Username := "" } ∧
    (NewVM demoProfile).1.GetSSHClient (unixEnv keyOverridden) =
      ({ client := { host := "172.16.0.2", port := 22, username := "root",
                     privateKey := "/home/user/.config/sear/sear_key" } }, none) := by
  decide

/-- C17 (as stated, refuted): the structured query answers an empty array and
the human-readable query would name `wlan0`; the detection issues the
structured query only and returns an error, and `Setup` goes on with `eth0`. -/
theorem detectHostInterface_skips_readable_query :
    parseTextRoutes "default via 192.168.1.1 dev wlan0 proto dhcp metric 600\n" =
      some "wlan0" ∧
    (detectHostInterface (simEnv emptyRouteArray) emptyWorld).1.log =
      [Event.query ["ip", "-j", "route", "list", "default"]] ∧
    (detectHostInterface (simEnv emptyRouteArray) emptyWorld).2 =
      Except.error "could not detect default interface" ∧
    (Setup (simEnv emptyRouteArray) (NewManager "tap0" "172.16.0.1" "172.16.0.1")
      emptyWorld).2.1.HostInterface = "eth0" :=
  ⟨by decide, by decide, rfl, by decide⟩

/-- C17 (amended): when the structured query succeeds only its output is used,
and the human-readable query is not issued; when it fails the output of the
human-readable query is used; on the output used, the device is the one of the
JSON rule, or else the one of the text rule; an error is returned when both
queries fail or the output used yields no device, and `Setup` then goes on
with `eth0`. -/
theorem detectHostInterface_parses_the_output_used (env : Env σ) (m : Manager)
    (w : World σ) :
    let structured := env.output w.state ["ip", "-j", "route", "list", "default"]
    let readable := env.output structured.1 ["ip", "route", "show", "default"]
    let d := detectHostInterface env w
    (∀ out, structured.2 = Except.ok out →
      d.1.log = w.log ++ [Event.query ["ip", "-j", "route", "list", "default"]] ∧
      (∀ dev, d.2 = Except.ok dev ↔
        jsonRule env out dev ∨ ((∀ x, ¬jsonRule env out x) ∧ textRule out dev)) ∧
      ((∀ dev, d.2 ≠ Except.ok dev) →
        d.2 = Except.error "could not detect default interface")) ∧
    (∀ e out, structured.2 = Except.error e → readable.2 = Except.ok out →
      d.1.log = w.log ++ [Event.query ["ip", "-j", "route", "list", "default"],
        Event.query ["ip", "route", "show", "default"]] ∧
      (∀ dev, d.2 = Except.ok dev ↔
        jsonRule env out dev ∨ ((∀ x, ¬jsonRule env out x) ∧ textRule out dev)) ∧
      ((∀ dev, d.2 ≠ Except.ok dev) →
        d.2 = Except.error "could not detect default interface")) ∧
    (∀ e e2, structured.2 = Except.error e → readable.2 = Except.error e2 →
      d.2 = Except.error (wrap "failed to detect default interface" e2)) ∧
    (∀ dev, d.2 = Except.ok dev → (Setup env m w).2.1.HostInterface = dev) ∧
    (∀ e, d.2 = Except.error e → (Setup env m w).2.1.HostInterface = "eth0") := by
  intro structured readable d
  refine ⟨?_, ?_, ?_, ?_, ?_⟩
  · intro out hout
    have hd : d = (World.mk structured.1
        (w.log ++ [Event.query ["ip", "-j", "route", "list", "default"]]),
        parseRoutes env out) := by
      simp only [d, detectHostInterface, commandOutput]
      simp only [structured] at hout
      simp only [hout]
    rw [hd]
    exact ⟨rfl, (parseRoutes_spec env out).1, (parseRoutes_spec env out).2⟩
  · intro e out he hout
    have hd : d = (World.mk readable.1
        (w.log ++ [Event.query ["ip", "-j", "route", "list", "default"]] ++
          [Event.query ["ip", "route", "show", "default"]]),
        parseRoutes env out) := by
      simp only [d, detectHostInterface, commandOutput]
      simp only [structured, readable] at he hout
      simp only [he, hout]
    rw [hd]
    exact ⟨by simp, (parseRoutes_spec env out).1, (parseRoutes_spec env out).2⟩
  · intro e e2 he he2
    simp only [d, detectHostInterface, commandOutput]
    simp only [structured, readable] at he he2
    simp only [he, he2]
  · intro dev hdev
    rw [Setup_manager]
    simp only [d] at hdev
    rw [hdev]
    rfl
  · intro e he
    rw [Setup_manager]
    simp only [d] at he
    rw [he]
    rfl

/-- C17 (amended), with a structured answer of one route through `enp3s0`:
that device is detected and `Setup` uses it. -/
theorem detectHostInterface_parses_the_output_used_witness :
    (detectHostInterface (simEnv structuredRoute) emptyWorld).2 = Except.ok "enp3s0" ∧
    (Setup (simEnv structuredRoute) (NewManager "tap0" "172.16.0.1" "172.16.0.1")
      emptyWorld).2.1.HostInterface = "enp3s0" :=
  have h := detectHostInterface_parses_the_output_used (simEnv structuredRoute)
    (NewManager "tap0" "172.16.0.1" "172.16.0.1") emptyWorld
  have hdev : (detectHostInterface (simEnv structuredRoute) emptyWorld).2 =
      Except.ok "enp3s0" :=
    ((h.1 _ rfl).2.1 "enp3s0").2 (Or.inl ⟨by decide, _, _, rfl, rfl, by decide, rfl⟩)
  ⟨hdev, h.2.2.2.1 "enp3s0" hdev⟩

end Sear
